import Mathlib

/-!
# A verification development for the ray tracer of `305a4/main.cpp`

The C++ program works on `double`s.  The embedding below is written over an
arbitrary linearly ordered field `K` (the reals are the intended reading, the
rationals make every definition executable).  Rounding, infinities and NaN are
outside the model; `std::sqrt` is passed in explicitly, and theorems that depend
on it state what they need from it.

C++ reference parameters (`Vector3d &p, Vector3d &N`) become explicit state: a
routine receives the current contents of `p` and `N` and returns the new ones
next to its `double` result.  Global scene variables become a `Scene` record.
The mesh buffers are read through the unchecked Eigen accessors, so the record
holds the read functions themselves: a read outside the buffer yields a value the
model does not constrain.

Layout: the embedding, the vocabulary of the statements, concrete rational
inputs, auxiliary lemmas, and then the claims in order.
-/

set_option autoImplicit false

/-! ## Eigen vectors -/

/-- Eigen `Vector3d`: three scalars. -/
@[ext]
structure Vector3d (K : Type) where
  x : K
  y : K
  z : K
deriving DecidableEq

/-- Eigen `Vector4d`: four scalars, used for RGBA colours. -/
@[ext]
structure Vector4d (K : Type) where
  r : K
  g : K
  b : K
  a : K
deriving DecidableEq

/-- Eigen `Matrix3d`, seen through its three columns (`.col(0)`, `.col(1)`, `.col(2)`). -/
structure Matrix3d (K : Type) where
  col0 : Vector3d K
  col1 : Vector3d K
  col2 : Vector3d K

namespace Vector3d

variable {K : Type} [LinearOrderedField K]

instance : Zero (Vector3d K) := ⟨⟨0, 0, 0⟩⟩

instance : Add (Vector3d K) := ⟨fun u v => ⟨u.x + v.x, u.y + v.y, u.z + v.z⟩⟩

instance : Sub (Vector3d K) := ⟨fun u v => ⟨u.x - v.x, u.y - v.y, u.z - v.z⟩⟩

instance : Neg (Vector3d K) := ⟨fun u => ⟨-u.x, -u.y, -u.z⟩⟩

instance : SMul K (Vector3d K) := ⟨fun k u => ⟨k * u.x, k * u.y, k * u.z⟩⟩

/-- Eigen `u.dot(v)`. -/
def dot (u v : Vector3d K) : K := u.x * v.x + u.y * v.y + u.z * v.z

/-- Eigen `u.cross(v)`. -/
def cross (u v : Vector3d K) : Vector3d K :=
  ⟨u.y * v.z - u.z * v.y, u.z * v.x - u.x * v.z, u.x * v.y - u.y * v.x⟩

/-- Eigen `u.squaredNorm()`. -/
def squaredNorm (u : Vector3d K) : K := u.dot u

/-- Eigen `u.norm()`, the square root of the squared norm. -/
def norm (sqrt : K → K) (u : Vector3d K) : K := sqrt u.squaredNorm

/-- Eigen `u / k`, coefficient-wise division by a scalar. -/
def divScalar (u : Vector3d K) (k : K) : Vector3d K := ⟨u.x / k, u.y / k, u.z / k⟩

/-- Eigen `u.normalized()`: `u / sqrt(z)` when the squared norm `z` is positive,
and `u` itself otherwise. -/
def normalized (sqrt : K → K) (u : Vector3d K) : Vector3d K :=
  let z := u.squaredNorm
  if z > 0 then u.divScalar (sqrt z) else u

end Vector3d

namespace Vector4d

variable {K : Type} [LinearOrderedField K]

instance : Zero (Vector4d K) := ⟨⟨0, 0, 0, 0⟩⟩

instance : Add (Vector4d K) := ⟨fun u v => ⟨u.r + v.r, u.g + v.g, u.b + v.b, u.a + v.a⟩⟩

instance : SMul K (Vector4d K) := ⟨fun k u => ⟨k * u.r, k * u.g, k * u.b, k * u.a⟩⟩

/-- Eigen `u.cwiseProduct(v)` (also `u.array() * v.array()`). -/
def cwiseProduct (u v : Vector4d K) : Vector4d K :=
  ⟨u.r * v.r, u.g * v.g, u.b * v.b, u.a * v.a⟩

/-- Eigen `u / k`, coefficient-wise division by a scalar. -/
def divScalar (u : Vector4d K) (k : K) : Vector4d K := ⟨u.r / k, u.g / k, u.b / k, u.a / k⟩

/-- Assignment `C(3) = k` to the alpha channel. -/
def setAlpha (u : Vector4d K) (k : K) : Vector4d K := ⟨u.r, u.g, u.b, k⟩

end Vector4d

/-! ## Scene and run-time environment -/

/-- What the program takes from outside the scene: `std::sqrt`, and the contents
of a default-constructed (uninitialised) `Vector3d`. -/
structure Env (K : Type) where
  sqrt : K → K
  uninit : Vector3d K

/-- The global scene variables of `main.cpp`.

`facets` and `vertices` are Eigen matrices read with the unchecked accessors
`coeff` and `row`: `facets_coeff i k` is what `facets.coeff(i, k)` yields and
`vertices_row j` what `vertices.row(j)` yields.  For `i < facets_rows` these are
the entries of the face buffer; outside that range they are whatever the
unchecked read finds, on which the model puts no constraint. -/
structure Scene (K : Type) where
  facets_rows : Nat
  facets_coeff : Nat → Nat → Int
  vertices_row : Int → Vector3d K
  sphere_centers : List (Vector3d K)
  sphere_radii : List K
  parallelograms : List (Matrix3d K)
  light_positions : List (Vector3d K)
  light_colors : List (Vector4d K)

/-- The `double` an intersection routine returns, with the contents of its
reference parameters `p` and `N` on return. -/
structure Isect (K : Type) where
  t : K
  p : Vector3d K
  N : Vector3d K

section Intersection

variable {K : Type} [LinearOrderedField K]

/-- Embeds `ray_triangle_intersection` (main.cpp 294-334). -/
def ray_triangle_intersection (e : Env K) (ray_origin ray_direction a b c p N : Vector3d K) :
    Isect K :=
  let epsilon : K := 1 / 10000000
  let edge1 := b - a
  let edge2 := c - a
  let h := ray_direction.cross edge2
  let det := edge1.dot h
  if det > -epsilon ∧ det < epsilon then ⟨-1, p, N⟩ else
  let indet := 1 / det
  let s := ray_origin - a
  let u := indet * s.dot h
  if u < 0 ∨ u > 1 then ⟨-1, p, N⟩ else
  let q := s.cross edge1
  let v := indet * ray_direction.dot q
  if v < 0 ∨ u + v > 1 then ⟨-1, p, N⟩ else
  let t := indet * edge2.dot q
  if t < 0 then ⟨-1, p, N⟩ else
  ⟨t, ray_origin + t • ray_direction, (edge1.cross edge2).normalized e.sqrt⟩

/-- Embeds `ray_sphere_intersection` (main.cpp 225-257).  `sphere_centers[index]`
and `sphere_radii[index]` are read with a default for an index past the end; the
program only passes `index < sphere_centers.size()`. -/
def ray_sphere_intersection (e : Env K) (sc : Scene K) (ray_origin ray_direction : Vector3d K)
    (index : Nat) (p N : Vector3d K) : Isect K :=
  let sphere_center := sc.sphere_centers.getD index 0
  let sphere_radius := sc.sphere_radii.getD index 0
  let a := ray_direction.dot ray_direction
  let originCenter := ray_origin - sphere_center
  let b := 2 * ray_direction.dot originCenter
  let c := originCenter.dot originCenter - sphere_radius * sphere_radius
  if b * b - 4 * a * c < 0 then ⟨-1, p, N⟩ else
  let t := (-b - e.sqrt (b * b - 4 * a * c)) / (2 * a)
  let p1 := ray_origin + t • ray_direction
  ⟨t, p1, (p1 - sphere_center).normalized e.sqrt⟩

/-- Embeds `ray_parallelogram_intersection` (main.cpp 260-284). -/
def ray_parallelogram_intersection (e : Env K) (sc : Scene K)
    (ray_origin ray_direction : Vector3d K) (index : Nat) (p N : Vector3d K) : Isect K :=
  let m := sc.parallelograms.getD index ⟨0, 0, 0⟩
  let pgram_origin := m.col0
  let A := m.col1
  let B := m.col2
  let pgram_v := A - pgram_origin
  let pgram_u := B - pgram_origin
  let pgram_N := pgram_u.cross pgram_v
  let t := (pgram_origin - ray_origin).dot pgram_N / ray_direction.dot pgram_N
  if t < 0 then ⟨-1, p, N⟩ else
  ⟨t, ray_origin + t • ray_direction, pgram_N.normalized e.sqrt⟩

/-- The value of `std::numeric_limits<double>::max()`, the largest finite binary64
number `(2^53 - 1) * 2^971`. -/
def dbl_max (K : Type) [LinearOrderedField K] : K := (2 ^ 53 - 1) * 2 ^ 971

/-- The local variables of `find_nearest_object` together with its reference
parameters `p` and `N`. -/
structure NearestState (K : Type) where
  tmp_p : Vector3d K
  tmp_N : Vector3d K
  flag : Int
  closest_t : K
  p : Vector3d K
  N : Vector3d K

/-- The body common to the three loops of `find_nearest_object`, after the
intersection routine has returned `r.t` and left `r.p`, `r.N` in `tmp_p`, `tmp_N`:
`if (t >= 0) { if (t < closest_t) { closest_t = t; p = tmp_p; N = tmp_N; flag = 1; } }`. -/
def nearest_update (st : NearestState K) (r : Isect K) : NearestState K :=
  if r.t ≥ 0 then
    if r.t < st.closest_t then
      { tmp_p := r.p, tmp_N := r.N, flag := 1, closest_t := r.t, p := r.p, N := r.N }
    else { st with tmp_p := r.p, tmp_N := r.N }
  else { st with tmp_p := r.p, tmp_N := r.N }

/-- The values `i` takes in `for (int i = 0; i <= total_rows; ++i)`:
`0, 1, ..., total_rows`, the bound included. -/
def triangle_scan_rows (total_rows : Nat) : List Nat := List.range (total_rows + 1)

/-- One iteration of the triangle loop (main.cpp 361-377): reads face row `i`
and its three vertex rows, then tests the triangle. -/
def triangle_scan_step (e : Env K) (sc : Scene K) (ray_origin ray_direction : Vector3d K)
    (st : NearestState K) (i : Nat) : NearestState K :=
  let facet_a := sc.facets_coeff i 0
  let facet_b := sc.facets_coeff i 1
  let facet_c := sc.facets_coeff i 2
  let vector_a := sc.vertices_row facet_a
  let vector_b := sc.vertices_row facet_b
  let vector_c := sc.vertices_row facet_c
  nearest_update st
    (ray_triangle_intersection e ray_origin ray_direction vector_a vector_b vector_c
      st.tmp_p st.tmp_N)

/-- One iteration of the sphere loop (main.cpp 384-396). -/
def sphere_scan_step (e : Env K) (sc : Scene K) (ray_origin ray_direction : Vector3d K)
    (st : NearestState K) (i : Nat) : NearestState K :=
  nearest_update st (ray_sphere_intersection e sc ray_origin ray_direction i st.tmp_p st.tmp_N)

/-- One iteration of the parallelogram loop (main.cpp 402-414). -/
def parallelogram_scan_step (e : Env K) (sc : Scene K) (ray_origin ray_direction : Vector3d K)
    (st : NearestState K) (i : Nat) : NearestState K :=
  nearest_update st
    (ray_parallelogram_intersection e sc ray_origin ray_direction i st.tmp_p st.tmp_N)

/-- The state in which `find_nearest_object` leaves its variables (main.cpp 354-415). -/
def find_nearest_state (e : Env K) (sc : Scene K) (ray_origin ray_direction p N : Vector3d K) :
    NearestState K :=
  let st0 : NearestState K :=
    { tmp_p := e.uninit, tmp_N := e.uninit, flag := 0, closest_t := dbl_max K, p := p, N := N }
  let total_rows := sc.facets_rows
  let st1 := (triangle_scan_rows total_rows).foldl
    (triangle_scan_step e sc ray_origin ray_direction) st0
  let st2 := (List.range sc.sphere_centers.length).foldl
    (sphere_scan_step e sc ray_origin ray_direction) st1
  (List.range sc.parallelograms.length).foldl
    (parallelogram_scan_step e sc ray_origin ray_direction) st2

/-- The result of `find_nearest_object`: its `bool`, and `p`, `N` on return. -/
structure Nearest (K : Type) where
  found : Bool
  p : Vector3d K
  N : Vector3d K

/-- Embeds `find_nearest_object` (main.cpp 352-428). -/
def find_nearest_object (e : Env K) (sc : Scene K) (ray_origin ray_direction p N : Vector3d K) :
    Nearest K :=
  let st := find_nearest_state e sc ray_origin ray_direction p N
  if st.flag = 1 then ⟨true, st.p, st.N⟩ else ⟨false, st.p, st.N⟩

/-- Embeds `is_light_visible` (main.cpp 433-448); its locals `p`, `N` start
uninitialised. -/
def is_light_visible (e : Env K) (sc : Scene K) (ray_origin ray_direction light_position :
    Vector3d K) : Bool :=
  let r := find_nearest_object e sc ray_origin ray_direction e.uninit e.uninit
  let ii : Int := if r.found then 1 else 0
  if ii = 0 then true else
  let distance_intersect := (r.p - ray_origin).norm e.sqrt
  let distance_light := (light_position - ray_origin).norm e.sqrt
  if distance_intersect < distance_light then false else true

/-- Material constant `obj_ambient_color`. -/
def obj_ambient_color (K : Type) [LinearOrderedField K] : Vector4d K := ⟨0, 1 / 2, 0, 0⟩

/-- Material constant `obj_diffuse_color`. -/
def obj_diffuse_color (K : Type) [LinearOrderedField K] : Vector4d K := ⟨1 / 2, 1 / 2, 1 / 2, 0⟩

/-- Material constant `obj_specular_color`. -/
def obj_specular_color (K : Type) [LinearOrderedField K] : Vector4d K := ⟨1 / 5, 1 / 5, 1 / 5, 0⟩

/-- Material constant `obj_specular_exponent` (256.0); `std::pow(x, 256.0)` is `x ^ 256`. -/
def obj_specular_exponent : Nat := 256

/-- Material constant `obj_reflection_color`. -/
def obj_reflection_color (K : Type) [LinearOrderedField K] : Vector4d K :=
  ⟨7 / 10, 7 / 10, 7 / 10, 0⟩

/-- Global `ambient_light`. -/
def ambient_light (K : Type) [LinearOrderedField K] : Vector4d K := ⟨1 / 5, 1 / 5, 1 / 5, 0⟩

/-- One iteration of the light loop of `shoot_ray` (main.cpp 474-494); the
`continue` leaves `lights_color` as it was. -/
def light_step (e : Env K) (sc : Scene K) (ray_direction p N : Vector3d K)
    (lights_color : Vector4d K) (i : Nat) : Vector4d K :=
  let light_position := sc.light_positions.getD i 0
  let light_color := sc.light_colors.getD i 0
  let diff_color := obj_diffuse_color K
  let Li := (light_position - p).normalized e.sqrt
  let diffuse := max (Li.dot N) 0 • diff_color
  let p_offset := p + (1 / 10000 : K) • Li
  if is_light_visible e sc p_offset Li light_position = false then lights_color else
  let Hi := (Li - ray_direction).normalized e.sqrt
  let specular := max (N.dot Hi) 0 ^ obj_specular_exponent • obj_specular_color K
  let D := light_position - p
  lights_color + ((diffuse + specular).cwiseProduct light_color).divScalar D.squaredNorm

/-- The light loop of `shoot_ray` (main.cpp 471-495), from `lights_color(0,0,0,0)`. -/
def lights_color (e : Env K) (sc : Scene K) (ray_direction p N : Vector3d K) : Vector4d K :=
  (List.range sc.light_positions.length).foldl (light_step e sc ray_direction p N) ⟨0, 0, 0, 0⟩

/-- The reflection direction of `shoot_ray` (main.cpp 503-505):
`v = ray_direction.normalized(); r = (2*N*(N.dot(v))) - v; r *= -1`. -/
def reflection_vector (e : Env K) (ray_direction N : Vector3d K) : Vector3d K :=
  let v := ray_direction.normalized e.sqrt
  let r := N.dot v • ((2 : K) • N) - v
  (-1 : K) • r

/-- Embeds `shoot_ray` (main.cpp 454-522), instrumented: next to the colour it
returns the list of the `max_bounce` arguments of every recursive `shoot_ray`
call made, in call order. -/
def shoot_ray_traced (e : Env K) (sc : Scene K) (ray_origin ray_direction : Vector3d K)
    (max_bounce : Int) : Vector4d K × List Int :=
  let r := find_nearest_object e sc ray_origin ray_direction e.uninit e.uninit
  let nearest_object : Bool := r.found
  if nearest_object = false then (⟨0, 0, 0, 0⟩, []) else
  let p := r.p
  let N := r.N
  let ambient_color := (obj_ambient_color K).cwiseProduct (ambient_light K)
  let lights := lights_color e sc ray_direction p N
  let refl_color : Vector4d K :=
    if (if nearest_object then (1 : Int) else 0) = 4 then ⟨1 / 2, 1 / 2, 1 / 2, 0⟩
    else obj_reflection_color K
  let counter := max_bounce
  let refl := reflection_vector e ray_direction N
  if counter > 0 then
    let ray_p := p + (1 / 10000 : K) • refl
    let sub := shoot_ray_traced e sc ray_p refl (counter - 1)
    let reflection_color := refl_color.cwiseProduct sub.1
    ((ambient_color + lights + reflection_color).setAlpha 1, (counter - 1) :: sub.2)
  else
    ((ambient_color + lights + refl_color).setAlpha 1, [])
termination_by max_bounce.toNat
decreasing_by omega

/-- The colour `shoot_ray` returns. -/
def shoot_ray (e : Env K) (sc : Scene K) (ray_origin ray_direction : Vector3d K)
    (max_bounce : Int) : Vector4d K :=
  (shoot_ray_traced e sc ray_origin ray_direction max_bounce).1

/-- The recursive `shoot_ray` calls a call of `shoot_ray` gives rise to: the
`max_bounce` argument of each, in call order. -/
def shoot_ray_calls (e : Env K) (sc : Scene K) (ray_origin ray_direction : Vector3d K)
    (max_bounce : Int) : List Int :=
  (shoot_ray_traced e sc ray_origin ray_direction max_bounce).2

/-- The value of the variable `reflection_color` of `shoot_ray` (main.cpp 496-512)
for a ray that hits: `refl_color` after the test `nearest_object == 4`, multiplied
component-wise by the colour of the recursive call when `counter > 0`. -/
def reflection_color (e : Env K) (sc : Scene K) (ray_origin ray_direction : Vector3d K)
    (max_bounce : Int) : Vector4d K :=
  let r := find_nearest_object e sc ray_origin ray_direction e.uninit e.uninit
  let nearest_object : Bool := r.found
  let refl_color : Vector4d K :=
    if (if nearest_object then (1 : Int) else 0) = 4 then ⟨1 / 2, 1 / 2, 1 / 2, 0⟩
    else obj_reflection_color K
  let counter := max_bounce
  let refl := reflection_vector e ray_direction r.N
  if counter > 0 then
    refl_color.cwiseProduct
      (shoot_ray e sc (r.p + (1 / 10000 : K) • refl) refl (counter - 1))
  else refl_color

/-- Eigen `AlignedBox3d`: the corners `box.min()` and `box.max()`. -/
structure AlignedBox3d (K : Type) where
  min : Vector3d K
  max : Vector3d K

/-- The class `AABBTree::Node` (main.cpp 28-36). -/
structure Node (K : Type) where
  bbox : AlignedBox3d K
  parent : Int
  left : Int
  right : Int
  triangle : Int

/-- The class `AABBTree` (main.cpp 25-43): the `nodes` vector and `root`. -/
structure AABBTree (K : Type) where
  nodes : List (Node K)
  root : Int

set_option linter.unusedVariables false in
/-- Embeds the constructor `AABBTree::AABBTree(V, F)` (main.cpp 184-202), called
as `AABBTree(vertices, facets)`.  Its body computes the centroid of every face and
ends there: nothing is added to `nodes`, which keeps the empty vector it was
default-constructed with, and `root` is never assigned, so it keeps the
indeterminate value `root0`. -/
def AABBTree_build (sc : Scene K) (root0 : Int) : AABBTree K :=
  let centroids : List (Vector3d K) :=
    (List.range sc.facets_rows).map fun i =>
      ((List.range 3).foldl (fun row k => row + sc.vertices_row (sc.facets_coeff i k))
        0).divScalar 3
  { nodes := [], root := root0 }

set_option linter.unusedVariables false in
/-- Embeds `ray_box_intersection` (main.cpp 336-348): three reciprocals and the
box minimum are computed, and `false` is returned. -/
def ray_box_intersection (ray_origin ray_direction : Vector3d K) (box : AlignedBox3d K) :
    Bool :=
  let dfracx := 1 / ray_direction.x
  let dfracy := 1 / ray_direction.y
  let dfracz := 1 / ray_direction.z
  let boxMin := box.min
  false

end Intersection

/-! ## Vocabulary of the statements -/

section Vocabulary

variable {K : Type} [LinearOrderedField K]

/-- A primitive `find_nearest_object` runs an intersection test on: the triangle
read from face row `row`, the sphere at `index`, or the parallelogram at `index`. -/
inductive Primitive where
  | triangle (row : Nat)
  | sphere (index : Nat)
  | parallelogram (index : Nat)
deriving DecidableEq

/-- The primitives `find_nearest_object` tests, in the order of its three loops. -/
def tested_primitives (sc : Scene K) : List Primitive :=
  (triangle_scan_rows sc.facets_rows).map Primitive.triangle
    ++ (List.range sc.sphere_centers.length).map Primitive.sphere
    ++ (List.range sc.parallelograms.length).map Primitive.parallelogram

/-- The intersection test `find_nearest_object` runs on a primitive, as written in
the body of the matching loop. -/
def primitive_test (e : Env K) (sc : Scene K) (ray_origin ray_direction : Vector3d K)
    (q : Primitive) (p N : Vector3d K) : Isect K :=
  match q with
  | Primitive.triangle i =>
    ray_triangle_intersection e ray_origin ray_direction
      (sc.vertices_row (sc.facets_coeff i 0)) (sc.vertices_row (sc.facets_coeff i 1))
      (sc.vertices_row (sc.facets_coeff i 2)) p N
  | Primitive.sphere i => ray_sphere_intersection e sc ray_origin ray_direction i p N
  | Primitive.parallelogram i =>
    ray_parallelogram_intersection e sc ray_origin ray_direction i p N

/-- The step `find_nearest_object` performs for one primitive. -/
def primitive_scan_step (e : Env K) (sc : Scene K) (ray_origin ray_direction : Vector3d K)
    (st : NearestState K) (q : Primitive) : NearestState K :=
  nearest_update st (primitive_test e sc ray_origin ray_direction q st.tmp_p st.tmp_N)

/-- Follows the spec's words ("exhaustively testing every triangle"): the nearest
hit among exactly the triangles of the face buffer, rows `0` to `facets_rows - 1`,
that is the test result with the smallest `t ≥ 0`, or `none` when no triangle is hit. -/
def spec_exhaustive_nearest_triangle (e : Env K) (sc : Scene K)
    (ray_origin ray_direction : Vector3d K) : Option (Isect K) :=
  (List.range sc.facets_rows).foldl
    (fun best i =>
      let r := primitive_test e sc ray_origin ray_direction (Primitive.triangle i)
        e.uninit e.uninit
      if 0 ≤ r.t then
        match best with
        | none => some r
        | some b => if r.t < b.t then some r else some b
      else best)
    none

/-- Follows the claim's words: the shadow ray of a light, cast from
`p + 1e-4 L` along `L = normalize(light - p)`, hits some object at a distance
strictly smaller than the distance from the shadow-ray origin to the light. -/
def shadow_ray_blocked (e : Env K) (sc : Scene K) (p light_position : Vector3d K) : Prop :=
  (find_nearest_object e sc
      (p + (1 / 10000 : K) • (light_position - p).normalized e.sqrt)
      ((light_position - p).normalized e.sqrt) e.uninit e.uninit).found = true ∧
  ((find_nearest_object e sc
      (p + (1 / 10000 : K) • (light_position - p).normalized e.sqrt)
      ((light_position - p).normalized e.sqrt) e.uninit e.uninit).p
    - (p + (1 / 10000 : K) • (light_position - p).normalized e.sqrt)).norm e.sqrt
  < (light_position
      - (p + (1 / 10000 : K) • (light_position - p).normalized e.sqrt)).norm e.sqrt

/-- Follows the claim's words: `(diffuse + specular) * light_color / |light - p|^2`,
component-wise, with `diffuse = obj_diffuse_color * max(L.N, 0)` and
`specular = obj_specular_color * max(N.H, 0)^256`, `H = normalize(L - ray_direction)`. -/
def light_contribution (e : Env K) (ray_direction p N light_position : Vector3d K)
    (light_color : Vector4d K) : Vector4d K :=
  ((max (((light_position - p).normalized e.sqrt).dot N) 0 • obj_diffuse_color K
      + max (N.dot (((light_position - p).normalized e.sqrt - ray_direction).normalized e.sqrt)) 0
          ^ 256 • obj_specular_color K).cwiseProduct light_color).divScalar
    (light_position - p).squaredNorm

end Vocabulary

/-! ## Concrete inputs over the rationals -/

/-- Exact rational arithmetic with `Rat.sqrt`, which is the square root on squares;
uninitialised vectors read as zero. -/
def ratEnv : Env ℚ := ⟨Rat.sqrt, 0⟩

/-- A scene with the unit sphere at the origin and the parallelogram with corner
`(0,0,0)` and edges to `(1,0,0)` and `(0,1,0)`; no mesh (the stray read of face row
0 finds zeros, a degenerate triangle), no lights. -/
def unitScene : Scene ℚ :=
  { facets_rows := 0
    facets_coeff := fun _ _ => 0
    vertices_row := fun _ => 0
    sphere_centers := [⟨0, 0, 0⟩]
    sphere_radii := [1]
    parallelograms := [⟨⟨0, 0, 0⟩, ⟨1, 0, 0⟩, ⟨0, 1, 0⟩⟩]
    light_positions := []
    light_colors := [] }

/-- A scene with one sphere of radius 2 centred at the origin. -/
def insideScene : Scene ℚ :=
  { facets_rows := 0
    facets_coeff := fun _ _ => 0
    vertices_row := fun _ => 0
    sphere_centers := [⟨0, 0, 0⟩]
    sphere_radii := [2]
    parallelograms := []
    light_positions := []
    light_colors := [] }

/-- Two unit spheres centred 5 and 10 units ahead of the origin along `(0,0,1)`;
no mesh (the stray read of face row 0 finds zeros), no parallelograms. -/
def twoSpheres : Scene ℚ :=
  { facets_rows := 0
    facets_coeff := fun _ _ => 0
    vertices_row := fun _ => 0
    sphere_centers := [⟨0, 0, 5⟩, ⟨0, 0, 10⟩]
    sphere_radii := [1, 1]
    parallelograms := []
    light_positions := []
    light_colors := [] }

/-- A mesh of one triangle `(10,0,5), (11,0,5), (10,1,5)` (face row 0 is `0 1 2`;
the read of row 1 finds `1 2 0`), and one parallelogram in the plane
`z = dbl_max` with corner `(0,0,dbl_max)` and unit edges. -/
def farScene : Scene ℚ :=
  { facets_rows := 1
    facets_coeff := fun i k => if i = 0 then (k : Int) else (((k + 1) % 3 : Nat) : Int)
    vertices_row := fun j =>
      if j = 0 then ⟨10, 0, 5⟩ else if j = 1 then ⟨11, 0, 5⟩ else ⟨10, 1, 5⟩
    sphere_centers := []
    sphere_radii := []
    parallelograms := [⟨⟨0, 0, dbl_max ℚ⟩, ⟨0, 1, dbl_max ℚ⟩, ⟨1, 0, dbl_max ℚ⟩⟩]
    light_positions := []
    light_colors := [] }

/-- A scene with zero objects: no faces, no spheres, no parallelograms.  The
unchecked reads of face row 0 find `0 1 2`, and the vertex reads find the points
`(0,0,0), (1,0,0), (0,1,0)`. -/
def strayScene : Scene ℚ :=
  { facets_rows := 0
    facets_coeff := fun _ k => (k : Int)
    vertices_row := fun j =>
      if j = 0 then ⟨0, 0, 0⟩ else if j = 1 then ⟨1, 0, 0⟩ else ⟨0, 1, 0⟩
    sphere_centers := []
    sphere_radii := []
    parallelograms := []
    light_positions := []
    light_colors := [] }

/-- A mesh with the single face `0 1 2` over the vertices `(0,0,0), (1,0,0),
(0,1,0), (1,1,0)`; the read of face row 1, one past the last face, finds `1 2 3`. -/
def squareScene : Scene ℚ :=
  { facets_rows := 1
    facets_coeff := fun i k => ((i + k : Nat) : Int)
    vertices_row := fun j =>
      if j = 0 then ⟨0, 0, 0⟩ else if j = 1 then ⟨1, 0, 0⟩
      else if j = 2 then ⟨0, 1, 0⟩ else ⟨1, 1, 0⟩
    sphere_centers := []
    sphere_radii := []
    parallelograms := []
    light_positions := []
    light_colors := [] }

/-- The unit sphere at the origin lit by one light at `(0,0,5)` of colour
`(1,1,1,0)`; no mesh (the stray read of face row 0 finds zeros). -/
def litScene : Scene ℚ :=
  { facets_rows := 0
    facets_coeff := fun _ _ => 0
    vertices_row := fun _ => 0
    sphere_centers := [⟨0, 0, 0⟩]
    sphere_radii := [1]
    parallelograms := []
    light_positions := [⟨0, 0, 5⟩]
    light_colors := [⟨1, 1, 1, 0⟩] }

/-- As `litScene`, with a second unit sphere centred at `(0,0,3)`, between the
apex `(0,0,1)` of the first sphere and the light. -/
def shadowScene : Scene ℚ :=
  { facets_rows := 0
    facets_coeff := fun _ _ => 0
    vertices_row := fun _ => 0
    sphere_centers := [⟨0, 0, 0⟩, ⟨0, 0, 3⟩]
    sphere_radii := [1, 1]
    parallelograms := []
    light_positions := [⟨0, 0, 5⟩]
    light_colors := [⟨1, 1, 1, 0⟩] }

/-- The axis-aligned unit box with corners `(0,0,0)` and `(1,1,1)`. -/
def unitBox : AlignedBox3d ℚ := ⟨⟨0, 0, 0⟩, ⟨1, 1, 1⟩⟩

/-! ## Lemmas -/

section Lemmas

variable {K : Type} [LinearOrderedField K]

@[simp] theorem Vector3d.add_x (u v : Vector3d K) : (u + v).x = u.x + v.x := rfl
@[simp] theorem Vector3d.add_y (u v : Vector3d K) : (u + v).y = u.y + v.y := rfl
@[simp] theorem Vector3d.add_z (u v : Vector3d K) : (u + v).z = u.z + v.z := rfl
@[simp] theorem Vector3d.sub_x (u v : Vector3d K) : (u - v).x = u.x - v.x := rfl
@[simp] theorem Vector3d.sub_y (u v : Vector3d K) : (u - v).y = u.y - v.y := rfl
@[simp] theorem Vector3d.sub_z (u v : Vector3d K) : (u - v).z = u.z - v.z := rfl
@[simp] theorem Vector3d.neg_x (u : Vector3d K) : (-u).x = -u.x := rfl
@[simp] theorem Vector3d.neg_y (u : Vector3d K) : (-u).y = -u.y := rfl
@[simp] theorem Vector3d.neg_z (u : Vector3d K) : (-u).z = -u.z := rfl
@[simp] theorem Vector3d.smul_x (k : K) (u : Vector3d K) : (k • u).x = k * u.x := rfl
@[simp] theorem Vector3d.smul_y (k : K) (u : Vector3d K) : (k • u).y = k * u.y := rfl
@[simp] theorem Vector3d.smul_z (k : K) (u : Vector3d K) : (k • u).z = k * u.z := rfl
@[simp] theorem Vector3d.zero_x : (0 : Vector3d K).x = 0 := rfl
@[simp] theorem Vector3d.zero_y : (0 : Vector3d K).y = 0 := rfl
@[simp] theorem Vector3d.zero_z : (0 : Vector3d K).z = 0 := rfl

theorem Vector3d.add_def (u v : Vector3d K) : u + v = ⟨u.x + v.x, u.y + v.y, u.z + v.z⟩ := rfl

theorem Vector3d.sub_def (u v : Vector3d K) : u - v = ⟨u.x - v.x, u.y - v.y, u.z - v.z⟩ := rfl

theorem Vector3d.smul_def (k : K) (u : Vector3d K) : k • u = ⟨k * u.x, k * u.y, k * u.z⟩ := rfl

theorem Vector3d.neg_def (u : Vector3d K) : -u = ⟨-u.x, -u.y, -u.z⟩ := rfl

theorem Vector3d.zero_def : (0 : Vector3d K) = ⟨0, 0, 0⟩ := rfl

@[simp] theorem Vector4d.add_r (u v : Vector4d K) : (u + v).r = u.r + v.r := rfl
@[simp] theorem Vector4d.add_g (u v : Vector4d K) : (u + v).g = u.g + v.g := rfl
@[simp] theorem Vector4d.add_b (u v : Vector4d K) : (u + v).b = u.b + v.b := rfl
@[simp] theorem Vector4d.add_a (u v : Vector4d K) : (u + v).a = u.a + v.a := rfl
@[simp] theorem Vector4d.smul_r (k : K) (u : Vector4d K) : (k • u).r = k * u.r := rfl
@[simp] theorem Vector4d.smul_g (k : K) (u : Vector4d K) : (k • u).g = k * u.g := rfl
@[simp] theorem Vector4d.smul_b (k : K) (u : Vector4d K) : (k • u).b = k * u.b := rfl
@[simp] theorem Vector4d.smul_a (k : K) (u : Vector4d K) : (k • u).a = k * u.a := rfl

theorem Vector4d.add_rgba_def (u v : Vector4d K) :
    u + v = ⟨u.r + v.r, u.g + v.g, u.b + v.b, u.a + v.a⟩ := rfl

/-- Cramer's rule behind the Möller–Trumbore test: with `det ≠ 0`, the point
`O + t D` is `a + u (b - a) + v (c - a)` for the `u`, `v`, `t` the routine computes. -/
theorem moller_trumbore_point (O D a b c : Vector3d K)
    (hdet : (b - a).dot (D.cross (c - a)) ≠ 0) :
    O + (1 / (b - a).dot (D.cross (c - a)) * (c - a).dot ((O - a).cross (b - a))) • D
      = a + (1 / (b - a).dot (D.cross (c - a)) * (O - a).dot (D.cross (c - a))) • (b - a)
          + (1 / (b - a).dot (D.cross (c - a)) * D.dot ((O - a).cross (b - a))) • (c - a) := by
  ext
  · simp only [Vector3d.add_x, Vector3d.smul_x, Vector3d.sub_x]
    simp only [Vector3d.dot, Vector3d.cross, Vector3d.sub_x, Vector3d.sub_y, Vector3d.sub_z] at hdet ⊢
    field_simp
    ring
  · simp only [Vector3d.add_y, Vector3d.smul_y, Vector3d.sub_y]
    simp only [Vector3d.dot, Vector3d.cross, Vector3d.sub_x, Vector3d.sub_y, Vector3d.sub_z] at hdet ⊢
    field_simp
    ring
  · simp only [Vector3d.add_z, Vector3d.smul_z, Vector3d.sub_z]
    simp only [Vector3d.dot, Vector3d.cross, Vector3d.sub_x, Vector3d.sub_y, Vector3d.sub_z] at hdet ⊢
    field_simp
    ring

/-- The three loops of `find_nearest_object` are one scan over `tested_primitives`. -/
theorem find_nearest_state_eq (e : Env K) (sc : Scene K) (O D p N : Vector3d K) :
    find_nearest_state e sc O D p N
      = (tested_primitives sc).foldl (primitive_scan_step e sc O D)
          { tmp_p := e.uninit, tmp_N := e.uninit, flag := 0, closest_t := dbl_max K,
            p := p, N := N } := by
  unfold find_nearest_state tested_primitives
  simp only [List.foldl_append, List.foldl_map]
  rfl

/-- The value an intersection test returns does not depend on what `p` and `N`
held on entry. -/
theorem primitive_test_t_indep (e : Env K) (sc : Scene K) (O D : Vector3d K) (q : Primitive)
    (p N p1 N1 : Vector3d K) :
    (primitive_test e sc O D q p N).t = (primitive_test e sc O D q p1 N1).t := by
  cases q with
  | triangle i =>
    simp only [primitive_test, ray_triangle_intersection]
    split_ifs <;> rfl
  | sphere i =>
    simp only [primitive_test, ray_sphere_intersection]
    split_ifs <;> rfl
  | parallelogram i =>
    simp only [primitive_test, ray_parallelogram_intersection]
    split_ifs <;> rfl

/-- A test that returns `t ≥ 0` has overwritten `p` and `N`: its whole result does
not depend on what they held on entry. -/
theorem primitive_test_hit_indep (e : Env K) (sc : Scene K) (O D : Vector3d K) (q : Primitive)
    (p N p1 N1 : Vector3d K) (h : 0 ≤ (primitive_test e sc O D q p N).t) :
    primitive_test e sc O D q p1 N1 = primitive_test e sc O D q p N := by
  cases q with
  | triangle i =>
    simp only [primitive_test, ray_triangle_intersection] at h ⊢
    split_ifs at h ⊢ <;> first | rfl | (norm_num at h)
  | sphere i =>
    simp only [primitive_test, ray_sphere_intersection] at h ⊢
    split_ifs at h ⊢ <;> first | rfl | (norm_num at h)
  | parallelogram i =>
    simp only [primitive_test, ray_parallelogram_intersection] at h ⊢
    split_ifs at h ⊢ <;> first | rfl | (norm_num at h)

/-- `nearest_update` on a result that is recorded. -/
theorem nearest_update_hit (st : NearestState K) (r : Isect K) (h0 : 0 ≤ r.t)
    (h1 : r.t < st.closest_t) :
    nearest_update st r
      = { tmp_p := r.p, tmp_N := r.N, flag := 1, closest_t := r.t, p := r.p, N := r.N } := by
  unfold nearest_update
  rw [if_pos h0, if_pos h1]

/-- `nearest_update` on a result that is not recorded leaves `flag`, `closest_t`,
`p` and `N` as they were. -/
theorem nearest_update_skip (st : NearestState K) (r : Isect K)
    (h : ¬ (0 ≤ r.t ∧ r.t < st.closest_t)) :
    (nearest_update st r).flag = st.flag ∧ (nearest_update st r).closest_t = st.closest_t ∧
    (nearest_update st r).p = st.p ∧ (nearest_update st r).N = st.N := by
  unfold nearest_update
  split_ifs with h0 h1
  · exact absurd ⟨h0, h1⟩ h
  · exact ⟨rfl, rfl, rfl, rfl⟩
  · exact ⟨rfl, rfl, rfl, rfl⟩

/-- Invariant of the scan of `find_nearest_object` over a list of primitives, from
any state: `closest_t` only decreases and ends below every non-negative `t`
returned; and either nothing was recorded, because no test returned a `t` with
`0 ≤ t < closest_t`, or `flag = 1` and `closest_t`, `p`, `N` are the result of one
of the tests. -/
theorem scan_invariant (e : Env K) (sc : Scene K) (O D : Vector3d K) (qs : List Primitive) :
    ∀ st : NearestState K,
      (∀ q ∈ qs, ∀ p0 N0 : Vector3d K, 0 ≤ (primitive_test e sc O D q p0 N0).t →
          (qs.foldl (primitive_scan_step e sc O D) st).closest_t
            ≤ (primitive_test e sc O D q p0 N0).t) ∧
      (qs.foldl (primitive_scan_step e sc O D) st).closest_t ≤ st.closest_t ∧
      (((qs.foldl (primitive_scan_step e sc O D) st).flag = st.flag ∧
          (qs.foldl (primitive_scan_step e sc O D) st).closest_t = st.closest_t ∧
          (qs.foldl (primitive_scan_step e sc O D) st).p = st.p ∧
          (qs.foldl (primitive_scan_step e sc O D) st).N = st.N ∧
          ∀ q ∈ qs, ∀ p0 N0 : Vector3d K,
            ¬ (0 ≤ (primitive_test e sc O D q p0 N0).t ∧
                (primitive_test e sc O D q p0 N0).t < st.closest_t)) ∨
        ((qs.foldl (primitive_scan_step e sc O D) st).flag = 1 ∧
          ∃ q ∈ qs, ∀ p0 N0 : Vector3d K,
            0 ≤ (primitive_test e sc O D q p0 N0).t ∧
            (primitive_test e sc O D q p0 N0).t
              = (qs.foldl (primitive_scan_step e sc O D) st).closest_t ∧
            (primitive_test e sc O D q p0 N0).t < st.closest_t ∧
            (primitive_test e sc O D q p0 N0).p
              = (qs.foldl (primitive_scan_step e sc O D) st).p ∧
            (primitive_test e sc O D q p0 N0).N
              = (qs.foldl (primitive_scan_step e sc O D) st).N)) := by
  induction qs with
  | nil =>
    intro st
    refine ⟨?_, le_refl _, Or.inl ⟨rfl, rfl, rfl, rfl, ?_⟩⟩
    · intro q hq; simp at hq
    · intro q hq; simp at hq
  | cons q qs ih =>
    intro st
    simp only [List.foldl_cons]
    obtain ⟨ihmin, ihle, ihcase⟩ := ih (primitive_scan_step e sc O D st q)
    have ht : ∀ p0 N0 : Vector3d K, (primitive_test e sc O D q p0 N0).t
        = (primitive_test e sc O D q st.tmp_p st.tmp_N).t :=
      fun p0 N0 => primitive_test_t_indep e sc O D q p0 N0 st.tmp_p st.tmp_N
    by_cases hrec : 0 ≤ (primitive_test e sc O D q st.tmp_p st.tmp_N).t ∧
        (primitive_test e sc O D q st.tmp_p st.tmp_N).t < st.closest_t
    · have hst : primitive_scan_step e sc O D st q
          = { tmp_p := (primitive_test e sc O D q st.tmp_p st.tmp_N).p,
              tmp_N := (primitive_test e sc O D q st.tmp_p st.tmp_N).N,
              flag := 1,
              closest_t := (primitive_test e sc O D q st.tmp_p st.tmp_N).t,
              p := (primitive_test e sc O D q st.tmp_p st.tmp_N).p,
              N := (primitive_test e sc O D q st.tmp_p st.tmp_N).N } :=
        nearest_update_hit st _ hrec.1 hrec.2
      have hc : (primitive_scan_step e sc O D st q).closest_t
          = (primitive_test e sc O D q st.tmp_p st.tmp_N).t := by rw [hst]
      rw [hc] at ihle
      refine ⟨?_, le_trans ihle hrec.2.le, Or.inr ?_⟩
      · intro q' hq' p0 N0 h0
        rcases List.mem_cons.mp hq' with rfl | hq'
        · rw [ht p0 N0]; exact ihle
        · exact ihmin q' hq' p0 N0 h0
      · rcases ihcase with ⟨_, h2, h3, h4, _⟩ | ⟨h1, q', hq', hq'prop⟩
        · refine ⟨?_, q, List.mem_cons_self _ _, ?_⟩
          · rcases ih (primitive_scan_step e sc O D st q) with ⟨_, _, h | h⟩
            · rw [h.1, hst]
            · exact h.1
          · intro p0 N0
            have hall : primitive_test e sc O D q p0 N0
                = primitive_test e sc O D q st.tmp_p st.tmp_N :=
              primitive_test_hit_indep e sc O D q st.tmp_p st.tmp_N p0 N0 hrec.1
            rw [hall, h2, h3, h4, hst]
            exact ⟨hrec.1, rfl, hrec.2, rfl, rfl⟩
        · refine ⟨h1, q', List.mem_cons_of_mem _ hq', ?_⟩
          intro p0 N0
          obtain ⟨a1, a2, a3, a4, a5⟩ := hq'prop p0 N0
          rw [hc] at a3
          exact ⟨a1, a2, lt_trans a3 hrec.2, a4, a5⟩
    · obtain ⟨s1, s2, s3, s4⟩ := nearest_update_skip st _ hrec
      have hc : (primitive_scan_step e sc O D st q).closest_t = st.closest_t := s2
      rw [hc] at ihle
      refine ⟨?_, ihle, ?_⟩
      · intro q' hq' p0 N0 h0
        rcases List.mem_cons.mp hq' with rfl | hq'
        · rw [ht p0 N0] at h0 ⊢
          have : st.closest_t ≤ (primitive_test e sc O D q' st.tmp_p st.tmp_N).t := by
            by_contra hlt
            exact hrec ⟨h0, not_le.mp hlt⟩
          exact le_trans ihle this
        · exact ihmin q' hq' p0 N0 h0
      · rcases ihcase with ⟨h1, h2, h3, h4, h5⟩ | ⟨h1, q', hq', hq'prop⟩
        · left
          refine ⟨h1.trans s1, h2.trans s2, h3.trans s3, h4.trans s4, ?_⟩
          intro q' hq' p0 N0
          rcases List.mem_cons.mp hq' with rfl | hq'
          · rw [ht p0 N0]; exact hrec
          · have := h5 q' hq' p0 N0
            rw [hc] at this
            exact this
        · right
          refine ⟨h1, q', List.mem_cons_of_mem _ hq', ?_⟩
          intro p0 N0
          obtain ⟨a1, a2, a3, a4, a5⟩ := hq'prop p0 N0
          rw [hc] at a3
          exact ⟨a1, a2, a3, a4, a5⟩

end Lemmas

/-! ## Claims -/

section Claims

variable {K : Type} [LinearOrderedField K]

/-- `Rat.sqrt` returns the non-negative root of a rational square. -/
theorem rat_sqrt_spec (x y : ℚ) (hy : 0 ≤ y) (hxy : y * y = x) : ratEnv.sqrt x = y := by
  subst hxy
  show Rat.sqrt (y * y) = y
  rw [Rat.sqrt_eq, abs_of_nonneg hy]

/-- C1: whenever `ray_triangle_intersection` returns `t ≥ 0`, the point `p` it
writes lies in the triangle: `p = a + u (b - a) + v (c - a)` for some `u ≥ 0`,
`v ≥ 0` with `u + v ≤ 1`. -/
theorem ray_triangle_hit_in_triangle (e : Env K)
    (ray_origin ray_direction a b c p N : Vector3d K)
    (h : 0 ≤ (ray_triangle_intersection e ray_origin ray_direction a b c p N).t) :
    ∃ u v : K, 0 ≤ u ∧ 0 ≤ v ∧ u + v ≤ 1 ∧
      (ray_triangle_intersection e ray_origin ray_direction a b c p N).p
        = a + u • (b - a) + v • (c - a) := by
  unfold ray_triangle_intersection at h ⊢
  simp only at h ⊢
  split_ifs at h ⊢ with h1 h2 h3 h4
  · norm_num at h
  · norm_num at h
  · norm_num at h
  · norm_num at h
  · have hdet : (b - a).dot (ray_direction.cross (c - a)) ≠ 0 := by
      intro h0
      apply h1
      rw [h0]
      constructor <;> norm_num
    refine ⟨_, _, ?_, ?_, ?_, moller_trumbore_point ray_origin ray_direction a b c hdet⟩
    · push_neg at h2; exact h2.1
    · push_neg at h3; exact h3.1
    · push_neg at h3; exact h3.2

/-- Witness for C1: the ray from `(1/4, 1/4, 1)` along `(0,0,-1)` hits the triangle
`(0,0,0), (1,0,0), (0,1,0)` with `t = 1 ≥ 0`. -/
theorem ray_triangle_hit_in_triangle_witness :
    0 ≤ (ray_triangle_intersection ratEnv ⟨1 / 4, 1 / 4, 1⟩ ⟨0, 0, -1⟩
          ⟨0, 0, 0⟩ ⟨1, 0, 0⟩ ⟨0, 1, 0⟩ 0 0).t ∧
    ∃ u v : ℚ, 0 ≤ u ∧ 0 ≤ v ∧ u + v ≤ 1 ∧
      (ray_triangle_intersection ratEnv ⟨1 / 4, 1 / 4, 1⟩ ⟨0, 0, -1⟩
          ⟨0, 0, 0⟩ ⟨1, 0, 0⟩ ⟨0, 1, 0⟩ 0 0).p
        = (⟨0, 0, 0⟩ : Vector3d ℚ) + u • ((⟨1, 0, 0⟩ : Vector3d ℚ) - ⟨0, 0, 0⟩)
            + v • ((⟨0, 1, 0⟩ : Vector3d ℚ) - ⟨0, 0, 0⟩) :=
  have h : 0 ≤ (ray_triangle_intersection ratEnv ⟨1 / 4, 1 / 4, 1⟩ ⟨0, 0, -1⟩
          ⟨0, 0, 0⟩ ⟨1, 0, 0⟩ ⟨0, 1, 0⟩ 0 0).t := by
    norm_num [ray_triangle_intersection, Vector3d.dot, Vector3d.cross]
  ⟨h, ray_triangle_hit_in_triangle ratEnv _ _ _ _ _ _ _ h⟩

/-- C2: whenever one of the three intersection routines returns `t ≥ 0`, the point
`p` it writes is `ray_origin + t * ray_direction`. -/
theorem hit_point_on_ray (e : Env K) (sc : Scene K)
    (ray_origin ray_direction a b c p N : Vector3d K) (index : Nat) :
    (0 ≤ (ray_sphere_intersection e sc ray_origin ray_direction index p N).t →
      (ray_sphere_intersection e sc ray_origin ray_direction index p N).p
        = ray_origin
          + (ray_sphere_intersection e sc ray_origin ray_direction index p N).t • ray_direction) ∧
    (0 ≤ (ray_parallelogram_intersection e sc ray_origin ray_direction index p N).t →
      (ray_parallelogram_intersection e sc ray_origin ray_direction index p N).p
        = ray_origin
          + (ray_parallelogram_intersection e sc ray_origin ray_direction index p N).t
              • ray_direction) ∧
    (0 ≤ (ray_triangle_intersection e ray_origin ray_direction a b c p N).t →
      (ray_triangle_intersection e ray_origin ray_direction a b c p N).p
        = ray_origin
          + (ray_triangle_intersection e ray_origin ray_direction a b c p N).t • ray_direction) := by
  refine ⟨?_, ?_, ?_⟩
  · intro h
    unfold ray_sphere_intersection at h ⊢
    simp only at h ⊢
    split_ifs at h ⊢
    · norm_num at h
    · rfl
  · intro h
    unfold ray_parallelogram_intersection at h ⊢
    simp only at h ⊢
    split_ifs at h ⊢
    · norm_num at h
    · rfl
  · intro h
    unfold ray_triangle_intersection at h ⊢
    simp only at h ⊢
    split_ifs at h ⊢
    · norm_num at h
    · norm_num at h
    · norm_num at h
    · norm_num at h
    · rfl

/-- Witness for C2: from `(0,0,5)` along `(0,0,-1)` the unit sphere, the
parallelogram and the triangle `(0,0,0), (1,0,0), (0,1,0)` are all hit. -/
theorem hit_point_on_ray_witness :
    (ray_sphere_intersection ratEnv unitScene ⟨0, 0, 5⟩ ⟨0, 0, -1⟩ 0 0 0).p
        = (⟨0, 0, 5⟩ : Vector3d ℚ)
          + (ray_sphere_intersection ratEnv unitScene ⟨0, 0, 5⟩ ⟨0, 0, -1⟩ 0 0 0).t
              • (⟨0, 0, -1⟩ : Vector3d ℚ) ∧
    (ray_parallelogram_intersection ratEnv unitScene ⟨0, 0, 5⟩ ⟨0, 0, -1⟩ 0 0 0).p
        = (⟨0, 0, 5⟩ : Vector3d ℚ)
          + (ray_parallelogram_intersection ratEnv unitScene ⟨0, 0, 5⟩ ⟨0, 0, -1⟩ 0 0 0).t
              • (⟨0, 0, -1⟩ : Vector3d ℚ) ∧
    (ray_triangle_intersection ratEnv ⟨0, 0, 5⟩ ⟨0, 0, -1⟩ ⟨0, 0, 0⟩ ⟨1, 0, 0⟩ ⟨0, 1, 0⟩ 0 0).p
        = (⟨0, 0, 5⟩ : Vector3d ℚ)
          + (ray_triangle_intersection ratEnv ⟨0, 0, 5⟩ ⟨0, 0, -1⟩
              ⟨0, 0, 0⟩ ⟨1, 0, 0⟩ ⟨0, 1, 0⟩ 0 0).t • (⟨0, 0, -1⟩ : Vector3d ℚ) :=
  have h := hit_point_on_ray ratEnv unitScene ⟨0, 0, 5⟩ ⟨0, 0, -1⟩
    ⟨0, 0, 0⟩ ⟨1, 0, 0⟩ ⟨0, 1, 0⟩ 0 0 0
  ⟨h.1 (by
      have h4 : Rat.sqrt 4 = 2 := rat_sqrt_spec 4 2 (by norm_num) (by norm_num)
      norm_num [ray_sphere_intersection, unitScene, ratEnv, Vector3d.dot, h4]),
   h.2.1 (by
      norm_num [ray_parallelogram_intersection, unitScene, Vector3d.dot, Vector3d.cross]),
   h.2.2 (by
      norm_num [ray_triangle_intersection, Vector3d.dot, Vector3d.cross])⟩

/-- C3: for a sphere of centre `C` and radius `R > 0` and a ray of unit direction
`D` from a point `O` outside the sphere towards the centre (`C - O = s D`, `s > R`),
`ray_sphere_intersection` returns `t = |C - O| - R`, writes `p = O + t D` and the
normal `N = -D`.  `sqrt` is assumed to return the non-negative root of a square. -/
theorem sphere_central_ray (e : Env K) (sc : Scene K) (index : Nat)
    (O D C : Vector3d K) (R s : K) (p N : Vector3d K)
    (hsqrt : ∀ x y : K, 0 ≤ y → y * y = x → e.sqrt x = y)
    (hC : sc.sphere_centers[index]? = some C) (hR : sc.sphere_radii[index]? = some R)
    (hRpos : 0 < R) (hD : D.dot D = 1) (hs : R < s) (hCO : C - O = s • D) :
    (ray_sphere_intersection e sc O D index p N).t = (C - O).norm e.sqrt - R ∧
    (ray_sphere_intersection e sc O D index p N).p
      = O + (ray_sphere_intersection e sc O D index p N).t • D ∧
    (ray_sphere_intersection e sc O D index p N).N = -D := by
  obtain ⟨ox, oy, oz⟩ := O
  obtain ⟨dx, dy, dz⟩ := D
  obtain ⟨cx, cy, cz⟩ := C
  have hx : cx = ox + s * dx := by
    have := congrArg Vector3d.x hCO
    simp at this; linarith
  have hy : cy = oy + s * dy := by
    have := congrArg Vector3d.y hCO
    simp at this; linarith
  have hz : cz = oz + s * dz := by
    have := congrArg Vector3d.z hCO
    simp at this; linarith
  subst hx hy hz
  simp only [Vector3d.dot] at hD
  have hspos : 0 < s := lt_trans hRpos hs
  have hnorm : (({ x := ox + s * dx, y := oy + s * dy, z := oz + s * dz } : Vector3d K)
      - { x := ox, y := oy, z := oz }).norm e.sqrt = s := by
    apply hsqrt _ _ hspos.le
    simp only [Vector3d.squaredNorm, Vector3d.dot, Vector3d.sub_x, Vector3d.sub_y, Vector3d.sub_z]
    linear_combination (-(s * s)) * hD
  have hcen : sc.sphere_centers.getD index 0
      = { x := ox + s * dx, y := oy + s * dy, z := oz + s * dz } := by
    rw [List.getD_eq_getElem?_getD, hC]; rfl
  have hrad : sc.sphere_radii.getD index 0 = R := by
    rw [List.getD_eq_getElem?_getD, hR]; rfl
  have hdisc : ∀ a b c : K, a = 1 → b = -(2 * s) → c = s * s - R * R →
      b * b - 4 * a * c = (2 * R) * (2 * R) := by
    intro a b c ha hb hc; subst ha hb hc; ring
  unfold ray_sphere_intersection
  simp only [hcen, hrad, Vector3d.dot, Vector3d.sub_x, Vector3d.sub_y, Vector3d.sub_z]
  have hb : 2 * (dx * (ox - (ox + s * dx)) + dy * (oy - (oy + s * dy))
      + dz * (oz - (oz + s * dz))) = -(2 * s) := by
    linear_combination (-(2 * s)) * hD
  have hc : (ox - (ox + s * dx)) * (ox - (ox + s * dx))
      + (oy - (oy + s * dy)) * (oy - (oy + s * dy))
      + (oz - (oz + s * dz)) * (oz - (oz + s * dz)) - R * R = s * s - R * R := by
    linear_combination (s * s) * hD
  rw [hb, hc, hD, hdisc 1 (-(2 * s)) (s * s - R * R) rfl rfl rfl]
  have hsq : e.sqrt (2 * R * (2 * R)) = 2 * R := hsqrt _ _ (by linarith) rfl
  have hnot : ¬ (2 * R * (2 * R) < 0) := by nlinarith
  rw [if_neg hnot, hsq, hnorm]
  have ht : (-(-(2 * s)) - 2 * R) / (2 * 1) = s - R := by field_simp; ring
  rw [ht]
  refine ⟨rfl, rfl, ?_⟩
  have hsn : (({ x := ox, y := oy, z := oz } : Vector3d K) + (s - R) • { x := dx, y := dy, z := dz }
      - { x := ox + s * dx, y := oy + s * dy, z := oz + s * dz }).squaredNorm = R * R := by
    simp only [Vector3d.squaredNorm, Vector3d.dot, Vector3d.sub_x, Vector3d.sub_y,
      Vector3d.sub_z, Vector3d.add_x, Vector3d.add_y, Vector3d.add_z, Vector3d.smul_x,
      Vector3d.smul_y, Vector3d.smul_z]
    linear_combination (R * R) * hD
  unfold Vector3d.normalized
  simp only [hsn]
  rw [if_pos (by nlinarith), hsqrt (R * R) R hRpos.le rfl]
  have hR0 : R ≠ 0 := hRpos.ne.symm
  ext
  · simp only [Vector3d.divScalar, Vector3d.sub_x, Vector3d.add_x, Vector3d.smul_x, Vector3d.neg_x]
    field_simp; ring
  · simp only [Vector3d.divScalar, Vector3d.sub_y, Vector3d.add_y, Vector3d.smul_y, Vector3d.neg_y]
    field_simp; ring
  · simp only [Vector3d.divScalar, Vector3d.sub_z, Vector3d.add_z, Vector3d.smul_z, Vector3d.neg_z]
    field_simp; ring

/-- Witness for C3: centre `(0,0,0)`, radius 1, ray from `(0,0,5)` along `(0,0,-1)`
gives `t = 4`, `p = (0,0,1)` and `N = (0,0,1)`. -/
theorem sphere_central_ray_witness :
    (ray_sphere_intersection ratEnv unitScene ⟨0, 0, 5⟩ ⟨0, 0, -1⟩ 0 0 0).t = 4 ∧
    (ray_sphere_intersection ratEnv unitScene ⟨0, 0, 5⟩ ⟨0, 0, -1⟩ 0 0 0).p = ⟨0, 0, 1⟩ ∧
    (ray_sphere_intersection ratEnv unitScene ⟨0, 0, 5⟩ ⟨0, 0, -1⟩ 0 0 0).N = ⟨0, 0, 1⟩ := by
  have h := sphere_central_ray ratEnv unitScene 0 ⟨0, 0, 5⟩ ⟨0, 0, -1⟩ ⟨0, 0, 0⟩ 1 5 0 0
    rat_sqrt_spec rfl rfl (by norm_num) (by norm_num [Vector3d.dot]) (by norm_num)
    (by ext <;> norm_num)
  have hn : ((⟨0, 0, 0⟩ : Vector3d ℚ) - ⟨0, 0, 5⟩).norm ratEnv.sqrt = 5 :=
    rat_sqrt_spec _ 5 (by norm_num)
      (by norm_num [Vector3d.squaredNorm, Vector3d.dot])
  have ht : (ray_sphere_intersection ratEnv unitScene ⟨0, 0, 5⟩ ⟨0, 0, -1⟩ 0 0 0).t = 4 := by
    rw [h.1, hn]; norm_num
  refine ⟨ht, ?_, ?_⟩
  · rw [h.2.1, ht]; ext <;> norm_num
  · rw [h.2.2]; ext <;> norm_num

/-- C4 (evaluation at the failing input): for the sphere of radius 2 centred at
the origin and the ray from the origin along `(0,0,1)`, the quadratic
`|O + t D - C|^2 = R^2` has the roots `-2` and `2`, so its smaller non-negative
root is `2`; `ray_sphere_intersection` returns `-2`, and `find_nearest_object`
reports a miss. -/
theorem sphere_origin_inside_returns_negative_root :
    (ray_sphere_intersection ratEnv insideScene ⟨0, 0, 0⟩ ⟨0, 0, 1⟩ 0 0 0).t = -2 ∧
    (find_nearest_object ratEnv insideScene ⟨0, 0, 0⟩ ⟨0, 0, 1⟩ 0 0).found = false ∧
    ∀ t : ℚ, ((⟨0, 0, 0⟩ : Vector3d ℚ) + t • (⟨0, 0, 1⟩ : Vector3d ℚ)
        - ⟨0, 0, 0⟩).squaredNorm = 2 * 2 ↔ t = -2 ∨ t = 2 := by
  have h16 : Rat.sqrt 16 = 4 := rat_sqrt_spec 16 4 (by norm_num) (by norm_num)
  have hr1 : List.range 1 = [0] := rfl
  refine ⟨?_, ?_, ?_⟩
  · norm_num [ray_sphere_intersection, insideScene, ratEnv, Vector3d.dot, h16]
  · norm_num [find_nearest_object, find_nearest_state, triangle_scan_rows, insideScene, hr1,
      triangle_scan_step, sphere_scan_step, nearest_update, ray_triangle_intersection,
      ray_sphere_intersection, Vector3d.dot, Vector3d.cross, ratEnv, h16]
  · intro t
    simp only [Vector3d.squaredNorm, Vector3d.dot, Vector3d.sub_x, Vector3d.sub_y,
      Vector3d.sub_z, Vector3d.add_x, Vector3d.add_y, Vector3d.add_z, Vector3d.smul_x,
      Vector3d.smul_y, Vector3d.smul_z]
    constructor
    · intro h
      have h2 : (t + 2) * (t - 2) = 0 := by linear_combination h
      rcases mul_eq_zero.mp h2 with h3 | h3
      · left; linarith
      · right; linarith
    · rintro (h | h) <;> subst h <;> norm_num

/-- C5 (evaluation at the failing input): the ray from `(5,5,1)` along `(0,0,-1)`
meets the plane of the parallelogram with corner `(0,0,0)` and span vectors
`u = (0,1,0)`, `v = (1,0,0)` at `(5,5,0)`, whose span coordinates are `5` and `5`;
`ray_parallelogram_intersection` returns `t = 1` and writes that point. -/
theorem parallelogram_hit_outside_quad :
    (ray_parallelogram_intersection ratEnv unitScene ⟨5, 5, 1⟩ ⟨0, 0, -1⟩ 0 0 0).t = 1 ∧
    (ray_parallelogram_intersection ratEnv unitScene ⟨5, 5, 1⟩ ⟨0, 0, -1⟩ 0 0 0).p = ⟨5, 5, 0⟩ ∧
    ∀ alpha beta : ℚ,
      (⟨5, 5, 0⟩ : Vector3d ℚ) = (⟨0, 0, 0⟩ : Vector3d ℚ)
          + alpha • ((⟨0, 1, 0⟩ : Vector3d ℚ) - ⟨0, 0, 0⟩)
          + beta • ((⟨1, 0, 0⟩ : Vector3d ℚ) - ⟨0, 0, 0⟩) →
        alpha = 5 ∧ beta = 5 := by
  refine ⟨?_, ?_, ?_⟩
  · norm_num [ray_parallelogram_intersection, unitScene, Vector3d.dot, Vector3d.cross]
  · norm_num [ray_parallelogram_intersection, unitScene, Vector3d.dot, Vector3d.cross]
    ext <;> norm_num
  · intro alpha beta h
    have hx := congrArg Vector3d.x h
    have hy := congrArg Vector3d.y h
    simp at hx hy
    exact ⟨by linarith, by linarith⟩

/-- C6 (as amended): when `find_nearest_object` returns true, the `p` and `N` it
writes are those of a tested primitive whose `t` is `≥ 0` and is the minimum of all
non-negative `t` returned by the tests it ran; it returns false exactly when no
test returned a `t` with `0 ≤ t < dbl_max`. -/
theorem find_nearest_object_nearest (e : Env K) (sc : Scene K) (O D p N : Vector3d K) :
    ((find_nearest_object e sc O D p N).found = true →
      ∃ q ∈ tested_primitives sc, ∀ p0 N0 : Vector3d K,
        0 ≤ (primitive_test e sc O D q p0 N0).t ∧
        (primitive_test e sc O D q p0 N0).p = (find_nearest_object e sc O D p N).p ∧
        (primitive_test e sc O D q p0 N0).N = (find_nearest_object e sc O D p N).N ∧
        ∀ q1 ∈ tested_primitives sc, ∀ p1 N1 : Vector3d K,
          0 ≤ (primitive_test e sc O D q1 p1 N1).t →
            (primitive_test e sc O D q p0 N0).t ≤ (primitive_test e sc O D q1 p1 N1).t) ∧
    ((find_nearest_object e sc O D p N).found = false ↔
      ∀ q ∈ tested_primitives sc, ∀ p0 N0 : Vector3d K,
        ¬ (0 ≤ (primitive_test e sc O D q p0 N0).t ∧
            (primitive_test e sc O D q p0 N0).t < dbl_max K)) := by
  obtain ⟨hmin, -, hcase⟩ := scan_invariant e sc O D (tested_primitives sc)
    { tmp_p := e.uninit, tmp_N := e.uninit, flag := 0, closest_t := dbl_max K, p := p, N := N }
  rw [← find_nearest_state_eq e sc O D p N] at hmin hcase
  unfold find_nearest_object
  simp only
  rcases hcase with ⟨h1, -, -, -, h5⟩ | ⟨h1, q, hq, hprop⟩
  · have hflag : ¬ (find_nearest_state e sc O D p N).flag = 1 := by
      rw [h1]; norm_num
    rw [if_neg hflag]
    refine ⟨fun h => by simp at h, fun _ => h5, fun _ => rfl⟩
  · rw [if_pos h1]
    refine ⟨fun _ => ⟨q, hq, ?_⟩, fun h => by simp at h, fun h => ?_⟩
    · intro p0 N0
      obtain ⟨a1, a2, -, a4, a5⟩ := hprop p0 N0
      refine ⟨a1, a4, a5, ?_⟩
      intro q1 hq1 p1 N1 h0
      rw [a2]
      exact hmin q1 hq1 p1 N1 h0
    · obtain ⟨a1, -, a3, -, -⟩ := hprop e.uninit e.uninit
      exact absurd ⟨a1, a3⟩ (h q hq e.uninit e.uninit)

/-- `dbl_max` is positive. -/
theorem dbl_max_pos : 0 < dbl_max K := by
  unfold dbl_max
  have h1 : (0 : K) < 2 ^ 53 - 1 := by norm_num
  have h2 : (0 : K) < 2 ^ 971 := by positivity
  exact mul_pos h1 h2

/-- C6 (counterexample to the claim as stated): in `farScene` the ray from the
origin along `(0,0,1)` meets the parallelogram at `t = dbl_max ≥ 0`, yet
`find_nearest_object` returns false. -/
theorem find_nearest_object_misses_at_dbl_max :
    (find_nearest_object ratEnv farScene ⟨0, 0, 0⟩ ⟨0, 0, 1⟩ 0 0).found = false ∧
    ∃ q ∈ tested_primitives farScene,
      0 ≤ (primitive_test ratEnv farScene ⟨0, 0, 0⟩ ⟨0, 0, 1⟩ q 0 0).t := by
  have hpos : (0 : ℚ) < dbl_max ℚ := dbl_max_pos
  have hr2 : List.range 2 = [0, 1] := rfl
  have hr1 : List.range 1 = [0] := rfl
  have hneg : ¬ (dbl_max ℚ < 0) := not_lt.mpr hpos.le
  constructor
  · norm_num [find_nearest_object, find_nearest_state, triangle_scan_rows, farScene, hr2, hr1,
      triangle_scan_step, parallelogram_scan_step, nearest_update, ray_triangle_intersection,
      ray_parallelogram_intersection, Vector3d.dot, Vector3d.cross, hneg, hpos.le]
  · refine ⟨Primitive.parallelogram 0, ?_, ?_⟩
    · simp [tested_primitives, farScene, hr1]
    · norm_num [primitive_test, ray_parallelogram_intersection, farScene, Vector3d.dot,
        Vector3d.cross, hneg, hpos.le]

/-- Witness for C6: with two unit spheres centred 5 and 10 units ahead of the
origin along the ray, `find_nearest_object` returns true with the nearer sphere's
hit, `p = (0,0,4)` (`t = 4`) and `N = (0,0,-1)`. -/
theorem find_nearest_object_two_spheres :
    (find_nearest_object ratEnv twoSpheres ⟨0, 0, 0⟩ ⟨0, 0, 1⟩ 0 0).found = true ∧
    (find_nearest_object ratEnv twoSpheres ⟨0, 0, 0⟩ ⟨0, 0, 1⟩ 0 0).p = ⟨0, 0, 4⟩ ∧
    (find_nearest_object ratEnv twoSpheres ⟨0, 0, 0⟩ ⟨0, 0, 1⟩ 0 0).N = ⟨0, 0, -1⟩ ∧
    ∃ q ∈ tested_primitives twoSpheres, ∀ p0 N0 : Vector3d ℚ,
      0 ≤ (primitive_test ratEnv twoSpheres ⟨0, 0, 0⟩ ⟨0, 0, 1⟩ q p0 N0).t ∧
      (primitive_test ratEnv twoSpheres ⟨0, 0, 0⟩ ⟨0, 0, 1⟩ q p0 N0).p
        = (find_nearest_object ratEnv twoSpheres ⟨0, 0, 0⟩ ⟨0, 0, 1⟩ 0 0).p ∧
      (primitive_test ratEnv twoSpheres ⟨0, 0, 0⟩ ⟨0, 0, 1⟩ q p0 N0).N
        = (find_nearest_object ratEnv twoSpheres ⟨0, 0, 0⟩ ⟨0, 0, 1⟩ 0 0).N ∧
      ∀ q1 ∈ tested_primitives twoSpheres, ∀ p1 N1 : Vector3d ℚ,
        0 ≤ (primitive_test ratEnv twoSpheres ⟨0, 0, 0⟩ ⟨0, 0, 1⟩ q1 p1 N1).t →
          (primitive_test ratEnv twoSpheres ⟨0, 0, 0⟩ ⟨0, 0, 1⟩ q p0 N0).t
            ≤ (primitive_test ratEnv twoSpheres ⟨0, 0, 0⟩ ⟨0, 0, 1⟩ q1 p1 N1).t := by
  have h4 : Rat.sqrt 4 = 2 := rat_sqrt_spec 4 2 (by norm_num) (by norm_num)
  have h1 : Rat.sqrt 1 = 1 := rat_sqrt_spec 1 1 (by norm_num) (by norm_num)
  have hr2 : List.range 2 = [0, 1] := rfl
  have hr1 : List.range 1 = [0] := rfl
  have hbig : (4 : ℚ) < dbl_max ℚ := by norm_num [dbl_max]
  have hst : find_nearest_state ratEnv twoSpheres ⟨0, 0, 0⟩ ⟨0, 0, 1⟩ 0 0
      = { tmp_p := ⟨0, 0, 9⟩, tmp_N := ⟨0, 0, -1⟩, flag := 1, closest_t := 4,
          p := ⟨0, 0, 4⟩, N := ⟨0, 0, -1⟩ } := by
    norm_num [find_nearest_state, triangle_scan_rows, twoSpheres, hr2, hr1,
      triangle_scan_step, sphere_scan_step, nearest_update, ray_triangle_intersection,
      ray_sphere_intersection, Vector3d.dot, Vector3d.cross, Vector3d.normalized,
      Vector3d.squaredNorm, Vector3d.divScalar, ratEnv, h4, h1, hbig, Vector3d.add_def,
      Vector3d.smul_def]
  have hfound : (find_nearest_object ratEnv twoSpheres ⟨0, 0, 0⟩ ⟨0, 0, 1⟩ 0 0).found = true := by
    simp [find_nearest_object, hst]
  refine ⟨hfound, ?_, ?_,
    (find_nearest_object_nearest ratEnv twoSpheres ⟨0, 0, 0⟩ ⟨0, 0, 1⟩ 0 0).1 hfound⟩
  · simp [find_nearest_object, hst]
  · simp [find_nearest_object, hst]

/-- C7 (evaluation at the failing input): `strayScene` has zero objects, yet the
triangle loop of `find_nearest_object` runs for `i = 0`, reads face row 0 and three
vertex rows, and the function returns true for the ray from `(1/4, 1/4, 1)` along
`(0,0,-1)`. -/
theorem find_nearest_object_empty_scene_reads_row_zero :
    strayScene.facets_rows = 0 ∧ strayScene.sphere_centers = [] ∧
    strayScene.parallelograms = [] ∧
    triangle_scan_rows strayScene.facets_rows = [0] ∧
    (find_nearest_object ratEnv strayScene ⟨1 / 4, 1 / 4, 1⟩ ⟨0, 0, -1⟩ 0 0).found = true := by
  have hr1 : List.range 1 = [0] := rfl
  refine ⟨rfl, rfl, rfl, rfl, ?_⟩
  norm_num [find_nearest_object, find_nearest_state, triangle_scan_rows, strayScene, hr1,
    triangle_scan_step, nearest_update, ray_triangle_intersection,
    Vector3d.dot, Vector3d.cross, dbl_max]

/-- C8 (evaluation at the failing input): on `squareScene`, whose face buffer holds
the single triangle `(0,0,0), (1,0,0), (0,1,0)`, the ray from `(3/4, 3/4, 1)` along
`(0,0,-1)` misses every triangle of the face buffer, so the exhaustive search
reports no hit; `find_nearest_object` also tests the triangle read from row 1 and
returns true with `p = (3/4, 3/4, 0)`. -/
theorem find_nearest_object_differs_from_exhaustive :
    (find_nearest_object ratEnv squareScene ⟨3 / 4, 3 / 4, 1⟩ ⟨0, 0, -1⟩ 0 0).found = true ∧
    (find_nearest_object ratEnv squareScene ⟨3 / 4, 3 / 4, 1⟩ ⟨0, 0, -1⟩ 0 0).p
      = ⟨3 / 4, 3 / 4, 0⟩ ∧
    spec_exhaustive_nearest_triangle ratEnv squareScene ⟨3 / 4, 3 / 4, 1⟩ ⟨0, 0, -1⟩ = none := by
  have hr2 : List.range 2 = [0, 1] := rfl
  have hr1 : List.range 1 = [0] := rfl
  refine ⟨?_, ?_, ?_⟩
  · norm_num [find_nearest_object, find_nearest_state, triangle_scan_rows, squareScene, hr2,
      triangle_scan_step, nearest_update, ray_triangle_intersection,
      Vector3d.dot, Vector3d.cross, dbl_max]
  · norm_num [find_nearest_object, find_nearest_state, triangle_scan_rows, squareScene, hr2,
      triangle_scan_step, nearest_update, ray_triangle_intersection,
      Vector3d.dot, Vector3d.cross, dbl_max, Vector3d.add_def, Vector3d.smul_def]
  · norm_num [spec_exhaustive_nearest_triangle, primitive_test, squareScene, hr1,
      ray_triangle_intersection, Vector3d.dot, Vector3d.cross]

/-- Unfolding of `shoot_ray_traced` on a miss. -/
theorem shoot_ray_traced_miss (e : Env K) (sc : Scene K) (O D : Vector3d K) (k : Int)
    (h : (find_nearest_object e sc O D e.uninit e.uninit).found = false) :
    shoot_ray_traced e sc O D k = (⟨0, 0, 0, 0⟩, []) := by
  rw [shoot_ray_traced]
  simp only [h, if_true]

/-- C9: for a ray that `find_nearest_object` reports as a miss, `shoot_ray` returns
`(0,0,0,0)` whatever the bounce budget. -/
theorem shoot_ray_miss_transparent (e : Env K) (sc : Scene K) (O D : Vector3d K) (k : Int)
    (h : (find_nearest_object e sc O D e.uninit e.uninit).found = false) :
    shoot_ray e sc O D k = ⟨0, 0, 0, 0⟩ := by
  unfold shoot_ray
  rw [shoot_ray_traced_miss e sc O D k h]

/-- Witness for C9: in `unitScene` the ray from `(0,0,5)` along `(0,0,1)` points
away from the sphere and the parallelogram, and is shaded `(0,0,0,0)`. -/
theorem shoot_ray_miss_transparent_witness :
    (find_nearest_object ratEnv unitScene ⟨0, 0, 5⟩ ⟨0, 0, 1⟩ ratEnv.uninit ratEnv.uninit).found
      = false ∧
    shoot_ray ratEnv unitScene ⟨0, 0, 5⟩ ⟨0, 0, 1⟩ 5 = ⟨0, 0, 0, 0⟩ :=
  have h : (find_nearest_object ratEnv unitScene ⟨0, 0, 5⟩ ⟨0, 0, 1⟩
      ratEnv.uninit ratEnv.uninit).found = false := by
    have h4 : Rat.sqrt 4 = 2 := rat_sqrt_spec 4 2 (by norm_num) (by norm_num)
    have hr1 : List.range 1 = [0] := rfl
    norm_num [find_nearest_object, find_nearest_state, triangle_scan_rows, unitScene, hr1,
      triangle_scan_step, sphere_scan_step, parallelogram_scan_step, nearest_update,
      ray_triangle_intersection, ray_sphere_intersection, ray_parallelogram_intersection,
      Vector3d.dot, Vector3d.cross, ratEnv, h4]
  ⟨h, shoot_ray_miss_transparent ratEnv unitScene ⟨0, 0, 5⟩ ⟨0, 0, 1⟩ 5 h⟩

/-- Unfolding of `shoot_ray_calls`: no call on a miss or when the budget is not
positive; otherwise one call with budget `k - 1`, followed by the calls it makes. -/
theorem shoot_ray_calls_eq (e : Env K) (sc : Scene K) (O D : Vector3d K) (k : Int) :
    shoot_ray_calls e sc O D k
      = if (find_nearest_object e sc O D e.uninit e.uninit).found = false then []
        else if k > 0 then
          (k - 1) :: shoot_ray_calls e sc
            ((find_nearest_object e sc O D e.uninit e.uninit).p
              + (1 / 10000 : K) • reflection_vector e D
                  (find_nearest_object e sc O D e.uninit e.uninit).N)
            (reflection_vector e D (find_nearest_object e sc O D e.uninit e.uninit).N)
            (k - 1)
        else [] := by
  unfold shoot_ray_calls
  rw [shoot_ray_traced]
  simp only
  split_ifs <;> rfl

/-- The recursive calls of `shoot_ray`, by induction on the budget. -/
theorem shoot_ray_calls_chain (e : Env K) (sc : Scene K) :
    ∀ (n : Nat) (k : Int) (O D : Vector3d K), k.toNat = n →
      (shoot_ray_calls e sc O D k).length ≤ n ∧
      List.Chain (fun caller callee : Int => 0 < caller ∧ callee = caller - 1) k
        (shoot_ray_calls e sc O D k) := by
  intro n
  induction n with
  | zero =>
    intro k O D hk
    have hk0 : ¬ k > 0 := by omega
    rw [shoot_ray_calls_eq, if_neg hk0]
    split_ifs <;> exact ⟨le_refl _, List.Chain.nil⟩
  | succ n ih =>
    intro k O D hk
    have hk0 : k > 0 := by omega
    rw [shoot_ray_calls_eq, if_pos hk0]
    split_ifs
    · exact ⟨Nat.zero_le _, List.Chain.nil⟩
    · obtain ⟨hlen, hchain⟩ := ih (k - 1)
        ((find_nearest_object e sc O D e.uninit e.uninit).p
          + (1 / 10000 : K) • reflection_vector e D
              (find_nearest_object e sc O D e.uninit e.uninit).N)
        (reflection_vector e D (find_nearest_object e sc O D e.uninit e.uninit).N)
        (by omega)
      refine ⟨?_, List.Chain.cons ⟨hk0, rfl⟩ hchain⟩
      simp only [List.length_cons]
      omega

/-- C10: `shoot_ray` is a total function; called with budget `k ≥ 0` it gives rise
to at most `k` recursive `shoot_ray` calls, each made by a caller whose budget is
positive and with a budget exactly one less than its caller's. -/
theorem shoot_ray_bounce_budget (e : Env K) (sc : Scene K) (O D : Vector3d K) (k : Int)
    (hk : 0 ≤ k) :
    ((shoot_ray_calls e sc O D k).length : Int) ≤ k ∧
    List.Chain (fun caller callee : Int => 0 < caller ∧ callee = caller - 1) k
      (shoot_ray_calls e sc O D k) := by
  obtain ⟨hlen, hchain⟩ := shoot_ray_calls_chain e sc k.toNat k O D rfl
  refine ⟨?_, hchain⟩
  omega

/-- Witness for C10: in `unitScene` the ray from `(0,0,5)` along `(0,0,-1)` with
budget 2 is reflected off the sphere once and the reflected ray misses: one
recursive call, with budget 1. -/
theorem shoot_ray_bounce_budget_witness :
    shoot_ray_calls ratEnv unitScene ⟨0, 0, 5⟩ ⟨0, 0, -1⟩ 2 = [1] ∧
    ((shoot_ray_calls ratEnv unitScene ⟨0, 0, 5⟩ ⟨0, 0, -1⟩ 2).length : Int) ≤ 2 ∧
    List.Chain (fun caller callee : Int => 0 < caller ∧ callee = caller - 1) 2
      (shoot_ray_calls ratEnv unitScene ⟨0, 0, 5⟩ ⟨0, 0, -1⟩ 2) := by
  refine ⟨?_, shoot_ray_bounce_budget ratEnv unitScene ⟨0, 0, 5⟩ ⟨0, 0, -1⟩ 2 (by decide)⟩
  have h4 : Rat.sqrt 4 = 2 := rat_sqrt_spec 4 2 (by norm_num) (by norm_num)
  have h1 : Rat.sqrt 1 = 1 := rat_sqrt_spec 1 1 (by norm_num) (by norm_num)
  have hr1 : List.range 1 = [0] := rfl
  have hbig : (4 : ℚ) < dbl_max ℚ := by norm_num [dbl_max]
  have hst : find_nearest_object ratEnv unitScene ⟨0, 0, 5⟩ ⟨0, 0, -1⟩ ratEnv.uninit ratEnv.uninit
      = ⟨true, ⟨0, 0, 1⟩, ⟨0, 0, 1⟩⟩ := by
    norm_num [find_nearest_object, find_nearest_state, triangle_scan_rows, unitScene, hr1,
      triangle_scan_step, sphere_scan_step, parallelogram_scan_step, nearest_update,
      ray_triangle_intersection, ray_sphere_intersection, ray_parallelogram_intersection,
      Vector3d.dot, Vector3d.cross, Vector3d.normalized, Vector3d.squaredNorm,
      Vector3d.divScalar, ratEnv, h4, h1, hbig, Vector3d.add_def, Vector3d.smul_def]
  have hrefl : reflection_vector ratEnv ⟨0, 0, -1⟩ ⟨0, 0, 1⟩ = ⟨0, 0, 1⟩ := by
    norm_num [reflection_vector, Vector3d.normalized, Vector3d.squaredNorm, Vector3d.dot,
      Vector3d.divScalar, ratEnv, h1, Vector3d.smul_def, Vector3d.sub_def]
  have hmiss : (find_nearest_object ratEnv unitScene
      ((⟨0, 0, 1⟩ : Vector3d ℚ) + (1 / 10000 : ℚ) • (⟨0, 0, 1⟩ : Vector3d ℚ)) ⟨0, 0, 1⟩
      ratEnv.uninit ratEnv.uninit).found = false := by
    norm_num [find_nearest_object, find_nearest_state, triangle_scan_rows, unitScene, hr1,
      triangle_scan_step, sphere_scan_step, parallelogram_scan_step, nearest_update,
      ray_triangle_intersection, ray_sphere_intersection, ray_parallelogram_intersection,
      Vector3d.dot, Vector3d.cross, ratEnv, h4]
  rw [shoot_ray_calls_eq, hst]
  simp only [hrefl]
  rw [shoot_ray_calls_eq, hmiss]
  norm_num

/-- `is_light_visible` answers false exactly when `find_nearest_object` reports a
hit that is strictly nearer to the ray origin than the light. -/
theorem is_light_visible_eq_false_iff (e : Env K) (sc : Scene K)
    (O D light_position : Vector3d K) :
    is_light_visible e sc O D light_position = false ↔
      (find_nearest_object e sc O D e.uninit e.uninit).found = true ∧
      ((find_nearest_object e sc O D e.uninit e.uninit).p - O).norm e.sqrt
        < (light_position - O).norm e.sqrt := by
  unfold is_light_visible
  simp only
  cases hf : (find_nearest_object e sc O D e.uninit e.uninit).found
  · simp
  · simp

/-- C11: in the light loop of `shoot_ray`, a light whose shadow ray (from
`p + 1e-4 L` along `L = normalize(light - p)`) hits an object strictly nearer than
the light leaves the accumulated light colour unchanged; any other light adds
`(diffuse + specular) * light_color / |light - p|^2` to it, component-wise. -/
theorem light_step_shadow (e : Env K) (sc : Scene K) (ray_direction p N : Vector3d K)
    (lights : Vector4d K) (i : Nat) :
    (shadow_ray_blocked e sc p (sc.light_positions.getD i 0) →
      light_step e sc ray_direction p N lights i = lights) ∧
    (¬ shadow_ray_blocked e sc p (sc.light_positions.getD i 0) →
      light_step e sc ray_direction p N lights i
        = lights + light_contribution e ray_direction p N (sc.light_positions.getD i 0)
            (sc.light_colors.getD i 0)) := by
  constructor
  · intro h
    have hv := (is_light_visible_eq_false_iff e sc _ _ (sc.light_positions.getD i 0)).mpr h
    unfold light_step
    simp only
    rw [if_pos hv]
  · intro h
    have hv : ¬ is_light_visible e sc
        (p + (1 / 10000 : K) • (sc.light_positions.getD i 0 - p).normalized e.sqrt)
        ((sc.light_positions.getD i 0 - p).normalized e.sqrt)
        (sc.light_positions.getD i 0) = false :=
      fun hf => h ((is_light_visible_eq_false_iff e sc _ _ _).mp hf)
    unfold light_step
    simp only
    rw [if_neg hv]
    rfl

/-- Witness for C11: at the apex `p = (0,0,1)` of the unit sphere, seen along
`(0,0,-1)`, the light at `(0,0,5)` is blocked in `shadowScene` and adds nothing;
in `litScene` it is not blocked and adds `(7/160, 7/160, 7/160, 0)`. -/
theorem light_step_shadow_witness :
    (shadow_ray_blocked ratEnv shadowScene ⟨0, 0, 1⟩ ⟨0, 0, 5⟩ ∧
      light_step ratEnv shadowScene ⟨0, 0, -1⟩ ⟨0, 0, 1⟩ ⟨0, 0, 1⟩ ⟨0, 0, 0, 0⟩ 0
        = ⟨0, 0, 0, 0⟩) ∧
    (¬ shadow_ray_blocked ratEnv litScene ⟨0, 0, 1⟩ ⟨0, 0, 5⟩ ∧
      light_step ratEnv litScene ⟨0, 0, -1⟩ ⟨0, 0, 1⟩ ⟨0, 0, 1⟩ ⟨0, 0, 0, 0⟩ 0
        = ⟨7 / 160, 7 / 160, 7 / 160, 0⟩) := by
  have h16 : Rat.sqrt 16 = 4 := rat_sqrt_spec 16 4 (by norm_num) (by norm_num)
  have h4 : Rat.sqrt 4 = 2 := rat_sqrt_spec 4 2 (by norm_num) (by norm_num)
  have h1 : Rat.sqrt 1 = 1 := rat_sqrt_spec 1 1 (by norm_num) (by norm_num)
  have hr1 : List.range 1 = [0] := rfl
  have hr2 : List.range 2 = [0, 1] := rfl
  have hL : ((⟨0, 0, 5⟩ : Vector3d ℚ) - ⟨0, 0, 1⟩).normalized ratEnv.sqrt = ⟨0, 0, 1⟩ := by
    norm_num [Vector3d.normalized, Vector3d.squaredNorm, Vector3d.dot, Vector3d.divScalar,
      ratEnv, h16, Vector3d.sub_def]
  have hoff : (⟨0, 0, 1⟩ : Vector3d ℚ) + (1 / 10000 : ℚ) • (⟨0, 0, 1⟩ : Vector3d ℚ)
      = ⟨0, 0, 10001 / 10000⟩ := by
    norm_num [Vector3d.add_def, Vector3d.smul_def]
  have hbig : (9999 / 10000 : ℚ) < dbl_max ℚ := by norm_num [dbl_max]
  have hhit : find_nearest_object ratEnv shadowScene ⟨0, 0, 10001 / 10000⟩ ⟨0, 0, 1⟩
      ratEnv.uninit ratEnv.uninit = ⟨true, ⟨0, 0, 2⟩, ⟨0, 0, -1⟩⟩ := by
    norm_num [find_nearest_object, find_nearest_state, triangle_scan_rows, shadowScene, hr1,
      hr2, triangle_scan_step, sphere_scan_step, nearest_update, ray_triangle_intersection,
      ray_sphere_intersection, Vector3d.dot, Vector3d.cross, Vector3d.normalized,
      Vector3d.squaredNorm, Vector3d.divScalar, ratEnv, h4, h1, hbig, Vector3d.add_def,
      Vector3d.smul_def, Vector3d.sub_def]
  have hmiss : (find_nearest_object ratEnv litScene ⟨0, 0, 10001 / 10000⟩ ⟨0, 0, 1⟩
      ratEnv.uninit ratEnv.uninit).found = false := by
    norm_num [find_nearest_object, find_nearest_state, triangle_scan_rows, litScene, hr1,
      triangle_scan_step, sphere_scan_step, nearest_update, ray_triangle_intersection,
      ray_sphere_intersection, Vector3d.dot, Vector3d.cross, ratEnv, h4]
  have hd1 : ((⟨0, 0, 2⟩ : Vector3d ℚ) - ⟨0, 0, 10001 / 10000⟩).norm ratEnv.sqrt
      = 9999 / 10000 :=
    rat_sqrt_spec _ _ (by norm_num)
      (by norm_num [Vector3d.squaredNorm, Vector3d.dot, Vector3d.sub_def])
  have hd2 : ((⟨0, 0, 5⟩ : Vector3d ℚ) - ⟨0, 0, 10001 / 10000⟩).norm ratEnv.sqrt
      = 39999 / 10000 :=
    rat_sqrt_spec _ _ (by norm_num)
      (by norm_num [Vector3d.squaredNorm, Vector3d.dot, Vector3d.sub_def])
  have hblocked : shadow_ray_blocked ratEnv shadowScene ⟨0, 0, 1⟩ ⟨0, 0, 5⟩ := by
    unfold shadow_ray_blocked
    rw [hL, hoff, hhit]
    refine ⟨rfl, ?_⟩
    show ((⟨0, 0, 2⟩ : Vector3d ℚ) - ⟨0, 0, 10001 / 10000⟩).norm ratEnv.sqrt
      < ((⟨0, 0, 5⟩ : Vector3d ℚ) - ⟨0, 0, 10001 / 10000⟩).norm ratEnv.sqrt
    rw [hd1, hd2]
    norm_num
  have hclear : ¬ shadow_ray_blocked ratEnv litScene ⟨0, 0, 1⟩ ⟨0, 0, 5⟩ := by
    unfold shadow_ray_blocked
    rw [hL, hoff, hmiss]
    simp
  have hH : ((⟨0, 0, 1⟩ : Vector3d ℚ) - ⟨0, 0, -1⟩).normalized ratEnv.sqrt = ⟨0, 0, 1⟩ := by
    norm_num [Vector3d.normalized, Vector3d.squaredNorm, Vector3d.dot, Vector3d.divScalar,
      ratEnv, h4, Vector3d.sub_def]
  have hcontrib : (⟨0, 0, 0, 0⟩ : Vector4d ℚ)
      + light_contribution ratEnv ⟨0, 0, -1⟩ ⟨0, 0, 1⟩ ⟨0, 0, 1⟩ ⟨0, 0, 5⟩ ⟨1, 1, 1, 0⟩
      = ⟨7 / 160, 7 / 160, 7 / 160, 0⟩ := by
    unfold light_contribution
    rw [hL, hH]
    ext <;>
      norm_num [Vector4d.cwiseProduct, Vector4d.divScalar, Vector3d.squaredNorm, Vector3d.dot,
        obj_diffuse_color, obj_specular_color, Vector3d.sub_def, Vector4d.add_r, Vector4d.add_g,
        Vector4d.add_b, Vector4d.add_a, Vector4d.smul_r, Vector4d.smul_g, Vector4d.smul_b,
        Vector4d.smul_a]
  refine ⟨⟨hblocked, ?_⟩, ⟨hclear, ?_⟩⟩
  · exact (light_step_shadow ratEnv shadowScene ⟨0, 0, -1⟩ ⟨0, 0, 1⟩ ⟨0, 0, 1⟩
      ⟨0, 0, 0, 0⟩ 0).1 hblocked
  · rw [← hcontrib]
    exact (light_step_shadow ratEnv litScene ⟨0, 0, -1⟩ ⟨0, 0, 1⟩ ⟨0, 0, 1⟩
      ⟨0, 0, 0, 0⟩ 0).2 hclear

/-- C12 (evaluation at the failing input): the constructor adds no node, for any
mesh; for `squareScene`, a mesh with one valid triangle, the tree has no nodes and
so no leaf whose triangle is face 0. -/
theorem AABBTree_build_has_no_nodes :
    (∀ (sc : Scene ℚ) (root0 : Int), (AABBTree_build sc root0).nodes = []) ∧
    squareScene.facets_rows = 1 ∧
    ¬ ∃ n ∈ (AABBTree_build squareScene 0).nodes, n.triangle = 0 := by
  refine ⟨fun _ _ => rfl, rfl, ?_⟩
  rintro ⟨n, hn, -⟩
  simp [AABBTree_build] at hn

/-- C13 (evaluation at the failing input): `ray_box_intersection` returns false
for every ray and box; in particular for the ray from `(1/2, 1/2, 1/2)`, a point
inside the unit box, along `(1,1,1)`, whose three slab intervals are all
`[-1/2, 1/2]`. -/
theorem ray_box_intersection_origin_inside :
    (∀ (O D : Vector3d ℚ) (box : AlignedBox3d ℚ), ray_box_intersection O D box = false) ∧
    (unitBox.min.x ≤ 1 / 2 ∧ (1 / 2 : ℚ) ≤ unitBox.max.x) ∧
    (unitBox.min.y ≤ 1 / 2 ∧ (1 / 2 : ℚ) ≤ unitBox.max.y) ∧
    (unitBox.min.z ≤ 1 / 2 ∧ (1 / 2 : ℚ) ≤ unitBox.max.z) ∧
    ((unitBox.min.x - 1 / 2) / 1 = -(1 / 2 : ℚ) ∧ (unitBox.max.x - 1 / 2) / 1 = (1 / 2 : ℚ)) ∧
    ((unitBox.min.y - 1 / 2) / 1 = -(1 / 2 : ℚ) ∧ (unitBox.max.y - 1 / 2) / 1 = (1 / 2 : ℚ)) ∧
    ((unitBox.min.z - 1 / 2) / 1 = -(1 / 2 : ℚ) ∧ (unitBox.max.z - 1 / 2) / 1 = (1 / 2 : ℚ)) ∧
    ray_box_intersection ⟨1 / 2, 1 / 2, 1 / 2⟩ ⟨1, 1, 1⟩ unitBox = false := by
  refine ⟨fun _ _ _ => rfl, ?_, ?_, ?_, ?_, ?_, ?_, rfl⟩ <;> norm_num [unitBox]

/-- C16 (evaluation at the failing input): the ray from `(0,0,1)` along `(1,0,0)`
is parallel to the plane of the parallelogram of `unitScene`, whose normal
`u × v = (0,0,-1)` is not zero.  `ray_parallelogram_intersection` tests nothing
before dividing by `ray_direction . N = 0`, and the value it returns is `≥ 0`
(the quotient by zero is `0` in a field and `+inf` in binary64). -/
theorem parallelogram_parallel_ray_unguarded :
    (((⟨0, 1, 0⟩ : Vector3d ℚ) - ⟨0, 0, 0⟩).cross ((⟨1, 0, 0⟩ : Vector3d ℚ) - ⟨0, 0, 0⟩)
      = ⟨0, 0, -1⟩) ∧
    (⟨1, 0, 0⟩ : Vector3d ℚ).dot ⟨0, 0, -1⟩ = 0 ∧
    0 < ((⟨0, 0, 0⟩ : Vector3d ℚ) - ⟨0, 0, 1⟩).dot ⟨0, 0, -1⟩ ∧
    0 ≤ (ray_parallelogram_intersection ratEnv unitScene ⟨0, 0, 1⟩ ⟨1, 0, 0⟩ 0 0 0).t := by
  refine ⟨?_, ?_, ?_, ?_⟩
  · norm_num [Vector3d.cross, Vector3d.sub_def]
  · norm_num [Vector3d.dot]
  · norm_num [Vector3d.dot]
  · norm_num [ray_parallelogram_intersection, unitScene, Vector3d.dot, Vector3d.cross]

/-- C17: the triangle scan of `find_nearest_object` runs over the face rows
`i = 0, ..., m` with `m = facets.rows()` included: the function is the scan of
`tested_primitives`, the triangle of row `i` is among them exactly when `i ≤ m`,
and its test reads `facets.coeff(i, 0..2)`.  So row `m`, which is not a valid row
(`¬ m < m`), is read on every call. -/
theorem triangle_scan_reads_row_m (e : Env K) (sc : Scene K) (O D : Vector3d K) :
    (∀ p N : Vector3d K, find_nearest_state e sc O D p N
      = (tested_primitives sc).foldl (primitive_scan_step e sc O D)
          { tmp_p := e.uninit, tmp_N := e.uninit, flag := 0, closest_t := dbl_max K,
            p := p, N := N }) ∧
    (∀ i : Nat, i ∈ triangle_scan_rows sc.facets_rows ↔ i ≤ sc.facets_rows) ∧
    (∀ i : Nat, Primitive.triangle i ∈ tested_primitives sc ↔ i ≤ sc.facets_rows) ∧
    Primitive.triangle sc.facets_rows ∈ tested_primitives sc ∧
    ¬ sc.facets_rows < sc.facets_rows ∧
    (∀ (i : Nat) (p N : Vector3d K),
      primitive_test e sc O D (Primitive.triangle i) p N
        = ray_triangle_intersection e O D (sc.vertices_row (sc.facets_coeff i 0))
            (sc.vertices_row (sc.facets_coeff i 1)) (sc.vertices_row (sc.facets_coeff i 2))
            p N) := by
  have hrows : ∀ i : Nat, i ∈ triangle_scan_rows sc.facets_rows ↔ i ≤ sc.facets_rows := by
    intro i
    simp [triangle_scan_rows, Nat.lt_succ_iff]
  have hmem : ∀ i : Nat, Primitive.triangle i ∈ tested_primitives sc ↔ i ≤ sc.facets_rows := by
    intro i
    rw [← hrows i]
    simp [tested_primitives]
  exact ⟨fun p N => find_nearest_state_eq e sc O D p N, hrows, hmem,
    (hmem _).mpr (le_refl _), lt_irrefl _, fun _ _ _ => rfl⟩

/-- The Bool-to-int value of `nearest_object` is never 4. -/
theorem nearest_object_ne_four (b : Bool) : ¬ (if b = true then (1 : Int) else 0) = 4 := by
  cases b <;> simp

/-- Unfolding of `shoot_ray` on a hit: the rendering equation
`C = ambient_color + lights_color + reflection_color; C(3) = 1`. -/
theorem shoot_ray_eq_of_hit (e : Env K) (sc : Scene K) (O D : Vector3d K) (k : Int)
    (h : (find_nearest_object e sc O D e.uninit e.uninit).found = true) :
    shoot_ray e sc O D k
      = ((obj_ambient_color K).cwiseProduct (ambient_light K)
          + lights_color e sc D (find_nearest_object e sc O D e.uninit e.uninit).p
              (find_nearest_object e sc O D e.uninit e.uninit).N
          + reflection_color e sc O D k).setAlpha 1 := by
  unfold reflection_color shoot_ray
  conv_lhs => rw [shoot_ray_traced]
  simp only [h]
  split_ifs <;> first | rfl | simp_all

/-- Unfolding of `reflection_color`: the test `nearest_object == 4` never fires. -/
theorem reflection_color_eq (e : Env K) (sc : Scene K) (O D : Vector3d K) (k : Int) :
    reflection_color e sc O D k
      = if k > 0 then
          (obj_reflection_color K).cwiseProduct
            (shoot_ray e sc
              ((find_nearest_object e sc O D e.uninit e.uninit).p
                + (1 / 10000 : K) • reflection_vector e D
                    (find_nearest_object e sc O D e.uninit e.uninit).N)
              (reflection_vector e D (find_nearest_object e sc O D e.uninit e.uninit).N)
              (k - 1))
        else obj_reflection_color K := by
  unfold reflection_color
  simp only [if_neg (nearest_object_ne_four _)]

/-- In `unitScene` the ray from `(0,0,5)` along `(0,0,-1)` hits the sphere at its
apex `(0,0,1)`, with normal `(0,0,1)`. -/
theorem unitScene_hit :
    find_nearest_object ratEnv unitScene ⟨0, 0, 5⟩ ⟨0, 0, -1⟩ ratEnv.uninit ratEnv.uninit
      = ⟨true, ⟨0, 0, 1⟩, ⟨0, 0, 1⟩⟩ := by
  have h4 : Rat.sqrt 4 = 2 := rat_sqrt_spec 4 2 (by norm_num) (by norm_num)
  have h1 : Rat.sqrt 1 = 1 := rat_sqrt_spec 1 1 (by norm_num) (by norm_num)
  have hr1 : List.range 1 = [0] := rfl
  have hbig : (4 : ℚ) < dbl_max ℚ := by norm_num [dbl_max]
  norm_num [find_nearest_object, find_nearest_state, triangle_scan_rows, unitScene, hr1,
    triangle_scan_step, sphere_scan_step, parallelogram_scan_step, nearest_update,
    ray_triangle_intersection, ray_sphere_intersection, ray_parallelogram_intersection,
    Vector3d.dot, Vector3d.cross, Vector3d.normalized, Vector3d.squaredNorm,
    Vector3d.divScalar, ratEnv, h4, h1, hbig, Vector3d.add_def, Vector3d.smul_def]

/-- In `unitScene` the ray reflected at the apex, from `(0,0,1) + 1e-4 (0,0,1)` along
`(0,0,1)`, misses every object. -/
theorem unitScene_reflected_miss :
    (find_nearest_object ratEnv unitScene
      ((find_nearest_object ratEnv unitScene ⟨0, 0, 5⟩ ⟨0, 0, -1⟩
          ratEnv.uninit ratEnv.uninit).p
        + (1 / 10000 : ℚ) • reflection_vector ratEnv ⟨0, 0, -1⟩
            (find_nearest_object ratEnv unitScene ⟨0, 0, 5⟩ ⟨0, 0, -1⟩
              ratEnv.uninit ratEnv.uninit).N)
      (reflection_vector ratEnv ⟨0, 0, -1⟩
        (find_nearest_object ratEnv unitScene ⟨0, 0, 5⟩ ⟨0, 0, -1⟩
          ratEnv.uninit ratEnv.uninit).N)
      ratEnv.uninit ratEnv.uninit).found = false := by
  have h4 : Rat.sqrt 4 = 2 := rat_sqrt_spec 4 2 (by norm_num) (by norm_num)
  have h1 : Rat.sqrt 1 = 1 := rat_sqrt_spec 1 1 (by norm_num) (by norm_num)
  have hr1 : List.range 1 = [0] := rfl
  have hrefl : reflection_vector ratEnv ⟨0, 0, -1⟩ ⟨0, 0, 1⟩ = ⟨0, 0, 1⟩ := by
    norm_num [reflection_vector, Vector3d.normalized, Vector3d.squaredNorm, Vector3d.dot,
      Vector3d.divScalar, ratEnv, h1, Vector3d.smul_def, Vector3d.sub_def]
  rw [unitScene_hit]
  simp only [hrefl]
  norm_num [find_nearest_object, find_nearest_state, triangle_scan_rows, unitScene, hr1,
    triangle_scan_step, sphere_scan_step, parallelogram_scan_step, nearest_update,
    ray_triangle_intersection, ray_sphere_intersection, ray_parallelogram_intersection,
    Vector3d.dot, Vector3d.cross, ratEnv, h4]

/-- The hit of `unitScene_hit`, as the Boolean `shoot_ray` looks at. -/
theorem unitScene_found :
    (find_nearest_object ratEnv unitScene ⟨0, 0, 5⟩ ⟨0, 0, -1⟩
      ratEnv.uninit ratEnv.uninit).found = true := by
  rw [unitScene_hit]

/-- C14: for a ray that hits a surface, the colour `shoot_ray` returns has alpha 1
and RGB equal to ambient (`obj_ambient_color * ambient_light`, component-wise)
plus the accumulated light colour plus the reflection contribution. -/
theorem shoot_ray_hit_colour (e : Env K) (sc : Scene K) (O D : Vector3d K) (k : Int)
    (h : (find_nearest_object e sc O D e.uninit e.uninit).found = true) :
    (shoot_ray e sc O D k).a = 1 ∧
    (shoot_ray e sc O D k).r
      = ((obj_ambient_color K).cwiseProduct (ambient_light K)).r
        + (lights_color e sc D (find_nearest_object e sc O D e.uninit e.uninit).p
            (find_nearest_object e sc O D e.uninit e.uninit).N).r
        + (reflection_color e sc O D k).r ∧
    (shoot_ray e sc O D k).g
      = ((obj_ambient_color K).cwiseProduct (ambient_light K)).g
        + (lights_color e sc D (find_nearest_object e sc O D e.uninit e.uninit).p
            (find_nearest_object e sc O D e.uninit e.uninit).N).g
        + (reflection_color e sc O D k).g ∧
    (shoot_ray e sc O D k).b
      = ((obj_ambient_color K).cwiseProduct (ambient_light K)).b
        + (lights_color e sc D (find_nearest_object e sc O D e.uninit e.uninit).p
            (find_nearest_object e sc O D e.uninit e.uninit).N).b
        + (reflection_color e sc O D k).b := by
  rw [shoot_ray_eq_of_hit e sc O D k h]
  exact ⟨rfl, rfl, rfl, rfl⟩

/-- Witness for C14: the ray from `(0,0,5)` along `(0,0,-1)` hits the sphere of
`unitScene`; stated for budget 2. -/
theorem shoot_ray_hit_colour_witness :
    (find_nearest_object ratEnv unitScene ⟨0, 0, 5⟩ ⟨0, 0, -1⟩
      ratEnv.uninit ratEnv.uninit).found = true ∧
    (shoot_ray ratEnv unitScene ⟨0, 0, 5⟩ ⟨0, 0, -1⟩ 2).a = 1 :=
  ⟨unitScene_found,
    (shoot_ray_hit_colour ratEnv unitScene ⟨0, 0, 5⟩ ⟨0, 0, -1⟩ 2 unitScene_found).1⟩

/-- C15: for a ray that hits a surface, `shoot_ray` with bounce budget 0 makes no
recursive call, its reflection contribution is `obj_reflection_color`
`= (0.7, 0.7, 0.7, 0)`, and its RGB output is ambient + accumulated lights +
`(0.7, 0.7, 0.7)`. -/
theorem shoot_ray_budget_zero (e : Env K) (sc : Scene K) (O D : Vector3d K)
    (h : (find_nearest_object e sc O D e.uninit e.uninit).found = true) :
    shoot_ray_calls e sc O D 0 = [] ∧
    reflection_color e sc O D 0 = obj_reflection_color K ∧
    obj_reflection_color K = ⟨7 / 10, 7 / 10, 7 / 10, 0⟩ ∧
    (shoot_ray e sc O D 0).r
      = ((obj_ambient_color K).cwiseProduct (ambient_light K)).r
        + (lights_color e sc D (find_nearest_object e sc O D e.uninit e.uninit).p
            (find_nearest_object e sc O D e.uninit e.uninit).N).r
        + 7 / 10 ∧
    (shoot_ray e sc O D 0).g
      = ((obj_ambient_color K).cwiseProduct (ambient_light K)).g
        + (lights_color e sc D (find_nearest_object e sc O D e.uninit e.uninit).p
            (find_nearest_object e sc O D e.uninit e.uninit).N).g
        + 7 / 10 ∧
    (shoot_ray e sc O D 0).b
      = ((obj_ambient_color K).cwiseProduct (ambient_light K)).b
        + (lights_color e sc D (find_nearest_object e sc O D e.uninit e.uninit).p
            (find_nearest_object e sc O D e.uninit e.uninit).N).b
        + 7 / 10 := by
  have hcalls : shoot_ray_calls e sc O D 0 = [] := by
    rw [shoot_ray_calls_eq]
    simp
  have hrc : reflection_color e sc O D 0 = obj_reflection_color K := by
    rw [reflection_color_eq]
    simp
  rw [shoot_ray_eq_of_hit e sc O D 0 h, hrc]
  exact ⟨hcalls, rfl, rfl, rfl, rfl, rfl⟩

/-- Witness for C15: the ray from `(0,0,5)` along `(0,0,-1)` in `unitScene`, which
has no lights: with budget 0 the colour is `(0.7, 0.8, 0.7, 1)`. -/
theorem shoot_ray_budget_zero_witness :
    shoot_ray_calls ratEnv unitScene ⟨0, 0, 5⟩ ⟨0, 0, -1⟩ 0 = [] ∧
    shoot_ray ratEnv unitScene ⟨0, 0, 5⟩ ⟨0, 0, -1⟩ 0 = ⟨7 / 10, 8 / 10, 7 / 10, 1⟩ := by
  have h := shoot_ray_budget_zero ratEnv unitScene ⟨0, 0, 5⟩ ⟨0, 0, -1⟩ unitScene_found
  refine ⟨h.1, ?_⟩
  obtain ⟨-, -, -, hr, hg, hb⟩ := h
  have ha := (shoot_ray_eq_of_hit ratEnv unitScene ⟨0, 0, 5⟩ ⟨0, 0, -1⟩ 0 unitScene_found)
  have hl : ∀ p N : Vector3d ℚ, lights_color ratEnv unitScene ⟨0, 0, -1⟩ p N = ⟨0, 0, 0, 0⟩ := by
    intro p N
    simp [lights_color, unitScene]
  ext
  · rw [hr, hl]; norm_num [Vector4d.cwiseProduct, obj_ambient_color, ambient_light]
  · rw [hg, hl]; norm_num [Vector4d.cwiseProduct, obj_ambient_color, ambient_light]
  · rw [hb, hl]; norm_num [Vector4d.cwiseProduct, obj_ambient_color, ambient_light]
  · rw [ha]; rfl

/-- `shoot_ray` on a miss, as an equation shared by later proofs. -/
theorem shoot_ray_miss_eq (e : Env K) (sc : Scene K) (O D : Vector3d K) (k : Int)
    (h : (find_nearest_object e sc O D e.uninit e.uninit).found = false) :
    shoot_ray e sc O D k = ⟨0, 0, 0, 0⟩ := by
  unfold shoot_ray
  rw [shoot_ray_traced_miss e sc O D k h]

/-- C19: the test `nearest_object == 4` of `shoot_ray` is never true, because
`nearest_object` is a Boolean (0 or 1 as an int); so the reflective colour that
enters the reflection step is `obj_reflection_color = (0.7, 0.7, 0.7, 0)` for
every ray, scene and budget, and never `(0.5, 0.5, 0.5, 0)`. -/
theorem reflection_tint_never_applied (e : Env K) (sc : Scene K) (O D : Vector3d K)
    (k : Int) :
    (∀ nearest_object : Bool, ¬ (if nearest_object = true then (1 : Int) else 0) = 4) ∧
    reflection_color e sc O D k
      = (if k > 0 then
          (obj_reflection_color K).cwiseProduct
            (shoot_ray e sc
              ((find_nearest_object e sc O D e.uninit e.uninit).p
                + (1 / 10000 : K) • reflection_vector e D
                    (find_nearest_object e sc O D e.uninit e.uninit).N)
              (reflection_vector e D (find_nearest_object e sc O D e.uninit e.uninit).N)
              (k - 1))
        else obj_reflection_color K) ∧
    obj_reflection_color K = ⟨7 / 10, 7 / 10, 7 / 10, 0⟩ ∧
    obj_reflection_color K ≠ ⟨1 / 2, 1 / 2, 1 / 2, 0⟩ := by
  refine ⟨nearest_object_ne_four, reflection_color_eq e sc O D k, rfl, ?_⟩
  intro h
  have hr := congrArg Vector4d.r h
  simp only [obj_reflection_color] at hr
  norm_num at hr

/-- C20: for a ray that hits a surface and a budget `k ≥ 1`, if the reflected ray
(from `p + 1e-4 r` along `r`) misses every object, the reflection contribution is
`(0,0,0,0)` and the RGB output is ambient + accumulated lights; the output for
budget 0 exceeds it by exactly `(0.7, 0.7, 0.7)`. -/
theorem shoot_ray_reflected_miss (e : Env K) (sc : Scene K) (O D : Vector3d K) (k : Int)
    (h : (find_nearest_object e sc O D e.uninit e.uninit).found = true) (hk : 1 ≤ k)
    (hmiss : (find_nearest_object e sc
        ((find_nearest_object e sc O D e.uninit e.uninit).p
          + (1 / 10000 : K) • reflection_vector e D
              (find_nearest_object e sc O D e.uninit e.uninit).N)
        (reflection_vector e D (find_nearest_object e sc O D e.uninit e.uninit).N)
        e.uninit e.uninit).found = false) :
    reflection_color e sc O D k = ⟨0, 0, 0, 0⟩ ∧
    ((shoot_ray e sc O D k).r
        = ((obj_ambient_color K).cwiseProduct (ambient_light K)).r
          + (lights_color e sc D (find_nearest_object e sc O D e.uninit e.uninit).p
              (find_nearest_object e sc O D e.uninit e.uninit).N).r ∧
      (shoot_ray e sc O D k).g
        = ((obj_ambient_color K).cwiseProduct (ambient_light K)).g
          + (lights_color e sc D (find_nearest_object e sc O D e.uninit e.uninit).p
              (find_nearest_object e sc O D e.uninit e.uninit).N).g ∧
      (shoot_ray e sc O D k).b
        = ((obj_ambient_color K).cwiseProduct (ambient_light K)).b
          + (lights_color e sc D (find_nearest_object e sc O D e.uninit e.uninit).p
              (find_nearest_object e sc O D e.uninit e.uninit).N).b) ∧
    ((shoot_ray e sc O D 0).r = (shoot_ray e sc O D k).r + 7 / 10 ∧
      (shoot_ray e sc O D 0).g = (shoot_ray e sc O D k).g + 7 / 10 ∧
      (shoot_ray e sc O D 0).b = (shoot_ray e sc O D k).b + 7 / 10) := by
  have hk0 : k > 0 := by omega
  have hrc : reflection_color e sc O D k = ⟨0, 0, 0, 0⟩ := by
    rw [reflection_color_eq, if_pos hk0, shoot_ray_miss_eq e sc _ _ (k - 1) hmiss]
    simp [Vector4d.cwiseProduct]
  have hrc0 : reflection_color e sc O D 0 = obj_reflection_color K := by
    rw [reflection_color_eq]
    simp
  rw [shoot_ray_eq_of_hit e sc O D k h, shoot_ray_eq_of_hit e sc O D 0 h, hrc, hrc0]
  refine ⟨rfl, ⟨?_, ?_, ?_⟩, ⟨?_, ?_, ?_⟩⟩ <;>
    simp [Vector4d.setAlpha, obj_reflection_color]

/-- Witness for C20: in `unitScene` the ray from `(0,0,5)` along `(0,0,-1)` hits the
sphere and its reflection misses; with budget 2 the reflection contribution is
`(0,0,0,0)`. -/
theorem shoot_ray_reflected_miss_witness :
    reflection_color ratEnv unitScene ⟨0, 0, 5⟩ ⟨0, 0, -1⟩ 2 = ⟨0, 0, 0, 0⟩ ∧
    (shoot_ray ratEnv unitScene ⟨0, 0, 5⟩ ⟨0, 0, -1⟩ 0).r
      = (shoot_ray ratEnv unitScene ⟨0, 0, 5⟩ ⟨0, 0, -1⟩ 2).r + 7 / 10 :=
  have h := shoot_ray_reflected_miss ratEnv unitScene ⟨0, 0, 5⟩ ⟨0, 0, -1⟩ 2
    unitScene_found (by decide) unitScene_reflected_miss
  ⟨h.1, h.2.2.1⟩

/-- C18: for a unit normal `N` and `v = normalize(ray_direction)` of a non-zero
direction, the reflection vector of `shoot_ray` is `r = v - 2 (N.v) N`, the mirror
image of `v` about the surface: `|r| = |v| = 1`, `r.N = -(v.N)`, and `r` and `v`
have the same component tangent to the surface.  `sqrt` is assumed exact at
`|ray_direction|^2` and at 1. -/
theorem reflection_vector_mirror (e : Env K) (D N : Vector3d K)
    (hN : N.dot N = 1) (hD : 0 < D.squaredNorm)
    (hroot : e.sqrt D.squaredNorm * e.sqrt D.squaredNorm = D.squaredNorm)
    (hone : e.sqrt 1 = 1) :
    reflection_vector e D N
      = D.normalized e.sqrt - (2 * N.dot (D.normalized e.sqrt)) • N ∧
    (reflection_vector e D N).norm e.sqrt = 1 ∧
    (D.normalized e.sqrt).norm e.sqrt = 1 ∧
    (reflection_vector e D N).dot N = -((D.normalized e.sqrt).dot N) ∧
    reflection_vector e D N - (reflection_vector e D N).dot N • N
      = D.normalized e.sqrt - (D.normalized e.sqrt).dot N • N := by
  have hs : e.sqrt D.squaredNorm ≠ 0 := by
    intro h0
    rw [h0, mul_zero] at hroot
    exact absurd hroot.symm hD.ne.symm
  have hv : (D.normalized e.sqrt).dot (D.normalized e.sqrt) = 1 := by
    unfold Vector3d.normalized
    simp only [if_pos hD]
    simp only [Vector3d.squaredNorm, Vector3d.dot, Vector3d.divScalar] at hroot hs ⊢
    field_simp
    linear_combination -hroot
  simp only [reflection_vector, Vector3d.norm, Vector3d.squaredNorm]
  generalize D.normalized e.sqrt = v at hv ⊢
  obtain ⟨nx, ny, nz⟩ := N
  obtain ⟨vx, vy, vz⟩ := v
  simp only [Vector3d.dot] at hN hv
  have hrr : ((-1 : K) • ((({ x := nx, y := ny, z := nz } : Vector3d K).dot
        { x := vx, y := vy, z := vz }) • ((2 : K) • ({ x := nx, y := ny, z := nz } : Vector3d K))
        - { x := vx, y := vy, z := vz })).dot
      ((-1 : K) • ((({ x := nx, y := ny, z := nz } : Vector3d K).dot
        { x := vx, y := vy, z := vz }) • ((2 : K) • ({ x := nx, y := ny, z := nz } : Vector3d K))
        - { x := vx, y := vy, z := vz })) = 1 := by
    simp only [Vector3d.dot, Vector3d.smul_x, Vector3d.smul_y, Vector3d.smul_z,
      Vector3d.sub_x, Vector3d.sub_y, Vector3d.sub_z]
    linear_combination hv + 4 * (nx * vx + ny * vy + nz * vz) ^ 2 * hN
  have hvv : ({ x := vx, y := vy, z := vz } : Vector3d K).dot { x := vx, y := vy, z := vz }
      = 1 := hv
  rw [hrr, hvv]
  refine ⟨?_, hone, hone, ?_, ?_⟩
  · ext <;>
      simp only [Vector3d.dot, Vector3d.smul_x, Vector3d.smul_y, Vector3d.smul_z,
        Vector3d.sub_x, Vector3d.sub_y, Vector3d.sub_z] <;> ring
  · simp only [Vector3d.dot, Vector3d.smul_x, Vector3d.smul_y, Vector3d.smul_z,
      Vector3d.sub_x, Vector3d.sub_y, Vector3d.sub_z]
    linear_combination (-2 * (nx * vx + ny * vy + nz * vz)) * hN
  · ext
    · simp only [Vector3d.dot, Vector3d.smul_x, Vector3d.smul_y, Vector3d.smul_z,
        Vector3d.sub_x, Vector3d.sub_y, Vector3d.sub_z]
      linear_combination (2 * (nx * vx + ny * vy + nz * vz) * nx) * hN
    · simp only [Vector3d.dot, Vector3d.smul_x, Vector3d.smul_y, Vector3d.smul_z,
        Vector3d.sub_x, Vector3d.sub_y, Vector3d.sub_z]
      linear_combination (2 * (nx * vx + ny * vy + nz * vz) * ny) * hN
    · simp only [Vector3d.dot, Vector3d.smul_x, Vector3d.smul_y, Vector3d.smul_z,
        Vector3d.sub_x, Vector3d.sub_y, Vector3d.sub_z]
      linear_combination (2 * (nx * vx + ny * vy + nz * vz) * nz) * hN

/-- Witness for C18: the direction `(3,4,0)`, normalised to `(3/5, 4/5, 0)`, is
reflected about the normal `(0,1,0)` into `(3/5, -4/5, 0)`, of length 1. -/
theorem reflection_vector_mirror_witness :
    reflection_vector ratEnv ⟨3, 4, 0⟩ ⟨0, 1, 0⟩ = ⟨3 / 5, -4 / 5, 0⟩ ∧
    (reflection_vector ratEnv ⟨3, 4, 0⟩ ⟨0, 1, 0⟩).norm ratEnv.sqrt = 1 ∧
    ((⟨3, 4, 0⟩ : Vector3d ℚ).normalized ratEnv.sqrt).norm ratEnv.sqrt = 1 ∧
    (reflection_vector ratEnv ⟨3, 4, 0⟩ ⟨0, 1, 0⟩).dot ⟨0, 1, 0⟩
      = -(((⟨3, 4, 0⟩ : Vector3d ℚ).normalized ratEnv.sqrt).dot ⟨0, 1, 0⟩) := by
  have hsq : (⟨3, 4, 0⟩ : Vector3d ℚ).squaredNorm = 25 := by
    norm_num [Vector3d.squaredNorm, Vector3d.dot]
  have h25 : ratEnv.sqrt 25 = 5 := rat_sqrt_spec 25 5 (by norm_num) (by norm_num)
  have hv : (⟨3, 4, 0⟩ : Vector3d ℚ).normalized ratEnv.sqrt = ⟨3 / 5, 4 / 5, 0⟩ := by
    unfold Vector3d.normalized
    simp only [hsq, h25]
    norm_num [Vector3d.divScalar]
  have h := reflection_vector_mirror ratEnv ⟨3, 4, 0⟩ ⟨0, 1, 0⟩
    (by norm_num [Vector3d.dot]) (by rw [hsq]; norm_num) (by rw [hsq, h25]; norm_num)
    (rat_sqrt_spec 1 1 (by norm_num) (by norm_num))
  refine ⟨?_, h.2.1, h.2.2.1, h.2.2.2.1⟩
  rw [h.1, hv]
  ext <;> norm_num [Vector3d.dot]

end Claims
